import Mathlib

/-!
Verification of the intent-resolution and dialogue-state engine of a
conversational wallet assistant.  The definitions below are a shallow
embedding of the TypeScript module that declares `OPERATIONS`,
`updateConversationContext`, `generateSuggestions`, `getPersonalizedTips`,
`handleGeneralChat` and `parseUserIntent`.

Modelling conventions:
* JavaScript numbers are modelled as exact rationals (`ℚ`); `NaN` is
  modelled as `Option.none` (see `parseFloatQ`).
* External collaborators (address detector, price oracle, transaction
  history service, knowledge service, `Math.random`) are parameters,
  collected in the `Collab` structure.  A call that may throw returns
  `Except String _`; `Except.error` models a thrown exception.
* Each JS regular expression used by the router is hand-compiled to a
  matcher built from backtracking parser combinators whose result lists
  are ordered exactly as the JS engine explores alternatives (leftmost
  position first, alternation order, greedy/lazy repetition order), so
  the first element of the result list is the JS match.
-/

/-- JS whitespace class `\s` restricted to the ASCII range. -/
def jsWs (c : Char) : Bool :=
  c = ' ' || c = '\t' || c = '\n' || c = '\r' || c = '\x0b' || c = '\x0c'

/-- JS word-character class `\w` = `[A-Za-z0-9_]`. -/
def jsWord (c : Char) : Bool :=
  c.isAlpha || c.isDigit || c = '_'

/-- JS `.` (dot) class: any character except a line terminator. -/
def jsDot (c : Char) : Bool :=
  c ≠ '\n' && c ≠ '\r'

/-- Case-insensitively strip a literal prefix, returning the actually
consumed characters (original case) and the rest. -/
def stripCI : List Char → List Char → Option (List Char × List Char)
  | [], s => some ([], s)
  | _ :: _, [] => none
  | c :: cs, d :: ds =>
    if c.toLower = d.toLower then
      (stripCI cs ds).map (fun p => (d :: p.1, p.2))
    else none

/-- A backtracking parser: input characters to a preference-ordered list of
(consumed characters, capture groups, remaining characters). -/
def RxP : Type := List Char → List (List Char × List (Option String) × List Char)

/-- Parser consuming nothing. -/
def pEps : RxP := fun s => [([], [], s)]

/-- Case-insensitive literal. -/
def pLit (lit : String) : RxP := fun s =>
  match stripCI lit.data s with
  | some (a, r) => [(a, [], r)]
  | none => []

/-- Sequencing; capture groups are concatenated in order. -/
def pSeq (p q : RxP) : RxP := fun s =>
  (p s).flatMap (fun x =>
    (q x.2.2).map (fun y => (x.1 ++ y.1, x.2.1 ++ y.2.1, y.2.2)))

/-- Sequence a list of parsers. -/
def pSeqs (ps : List RxP) : RxP := ps.foldr pSeq pEps

/-- Ordered alternation (first parser preferred, as in JS `|`). -/
def pAlt (ps : List RxP) : RxP := fun s => ps.flatMap (fun p => p s)

/-- Greedy option `p?` (non-capturing): trying `p` first, then empty. -/
def pOpt (p : RxP) : RxP := fun s => p s ++ [([], [], s)]

/-- All splits of a maximal run of class characters, longest first,
down to `low` characters: models greedy `+` (low = 1) and `*` (low = 0). -/
def pClassFrom (f : Char → Bool) (low : Nat) : RxP := fun s =>
  let run := s.takeWhile f
  ((List.range (run.length + 1 - low)).map
    (fun i => run.length - i)).filterMap
      (fun k => if low ≤ k then some (s.take k, [], s.drop k) else none)

/-- Greedy `f+`. -/
def pPlus (f : Char → Bool) : RxP := pClassFrom f 1

/-- Greedy `f*`. -/
def pStar (f : Char → Bool) : RxP := pClassFrom f 0

/-- Lazy `.+?`: shortest split first, at least one character. -/
def pDotLazyPlus : RxP := fun s =>
  let run := s.takeWhile jsDot
  ((List.range run.length).map (· + 1)).map
    (fun k => (s.take k, [], s.drop k))

/-- Greedy `.+` (at least one character, longest first). -/
def pDotPlus : RxP := pClassFrom jsDot 1

/-- Greedy `.*`. -/
def pDotStar : RxP := pClassFrom jsDot 0

/-- End-of-input anchor `$`. -/
def pEnd : RxP := fun s => if s.isEmpty then [([], [], s)] else []

/-- Capture group around a (group-free) sub-parser. -/
def pCap (p : RxP) : RxP := fun s =>
  (p s).map (fun x => (x.1, x.2.1 ++ [some (String.mk x.1)], x.2.2))

/-- Shorthand: greedy `\s+`. -/
def pWsP : RxP := pPlus jsWs

/-- Result of a successful JS `String.prototype.match`: the numbered
capture groups (index 1 upwards) and the `input` property. -/
structure MatchRes where
  groups : List (Option String)
  input : String
deriving DecidableEq, Repr

/-- Access `match[i]` (i ≥ 1); absent groups are `undefined`. -/
def MatchRes.g (m : MatchRes) (i : Nat) : Option String :=
  (m.groups.getD (i - 1) none)

/-- Run an anchored (`^...`) pattern: JS only tries position 0. -/
def reAnchored (p : RxP) (s : String) : Option MatchRes :=
  match p s.data with
  | [] => none
  | x :: _ => some ⟨x.2.1, s⟩

/-- Try a pattern at every start position, leftmost first (unanchored JS
search semantics). -/
def reSearchAux (p : RxP) (orig : String) : List Char → Option MatchRes
  | [] =>
    match p [] with
    | [] => none
    | x :: _ => some ⟨x.2.1, orig⟩
  | c :: cs =>
    match p (c :: cs) with
    | [] => reSearchAux p orig cs
    | x :: _ => some ⟨x.2.1, orig⟩

/-- Run an unanchored pattern against a string. -/
def reSearch (p : RxP) (s : String) : Option MatchRes :=
  reSearchAux p s s.data

/-- JS `parseFloat` restricted to the decimal shapes that occur in this
module (`\d+`, `\d+.`, `\d+.\d+`, with anything after the parsed prefix
ignored); `none` models `NaN`. -/
def parseFloatQ (s : String) : Option ℚ :=
  let cs := s.data
  let intPart := cs.takeWhile Char.isDigit
  if intPart.isEmpty then none
  else
    let rest := cs.drop intPart.length
    let fracPart :=
      match rest with
      | c :: cs2 => if c = '.' then cs2.takeWhile Char.isDigit else []
      | [] => []
    let iv : ℚ := (intPart.foldl (fun a c => a * 10 + (c.toNat - '0'.toNat)) 0 : Nat)
    let fv : ℚ := (fracPart.foldl (fun a c => a * 10 + (c.toNat - '0'.toNat)) 0 : Nat)
    some (iv + fv / (10 : ℚ) ^ fracPart.length)

/-- Value selected by JS `toFixed(d)`: the multiple of `10^-d` nearest to
`q`, ties away from zero for nonnegative `q` (the case exercised here). -/
def toFixedQ (d : Nat) (q : ℚ) : ℚ :=
  if q < 0 then -(((⌊(-q) * (10 : ℚ) ^ d + 1 / 2⌋ : ℤ) : ℚ) / (10 : ℚ) ^ d)
  else ((⌊q * (10 : ℚ) ^ d + 1 / 2⌋ : ℤ) : ℚ) / (10 : ℚ) ^ d

/-- Left-pad a numeral string with zeros to a given width. -/
def padZeros (w : Nat) (s : String) : String :=
  String.mk (List.replicate (w - s.length) '0') ++ s

/-- Render a nonnegative scaled integer with `d` decimal digits. -/
def renderScaled (d : Nat) (n : Nat) : String :=
  if d = 0 then toString n
  else toString (n / 10 ^ d) ++ "." ++ padZeros d (toString (n % 10 ^ d))

/-- JS `Number.prototype.toFixed(d)` on the rational model. -/
def toFixedStr (d : Nat) (q : ℚ) : String :=
  if q < 0 then "-" ++ renderScaled d (⌊(-q) * (10 : ℚ) ^ d + 1 / 2⌋ : ℤ).toNat
  else renderScaled d (⌊q * (10 : ℚ) ^ d + 1 / 2⌋ : ℤ).toNat

/-- JS `String.prototype.slice(0, n)`. -/
def strSliceTo (n : Nat) (s : String) : String :=
  String.mk (s.data.take n)

/-- JS `String.prototype.slice(-n)` (the last `n` characters, or the whole
string when it is shorter). -/
def strSliceLast (n : Nat) (s : String) : String :=
  String.mk (s.data.drop (s.data.length - n))

/-- JS truthiness on an optional string: `undefined`/`null` and the empty
string are falsy. -/
def strTruthy : Option String → Option String
  | some s => if s = "" then none else some s
  | none => none

/-- JS `a || b` on optional strings. -/
def jsOrStr (a b : Option String) : Option String :=
  match strTruthy a with
  | some s => some s
  | none => b

/-- JS `String.prototype.toLowerCase` (character-wise, ASCII-faithful). -/
def strToLower (s : String) : String := String.mk (s.data.map Char.toLower)

/-- JS `String.prototype.toUpperCase` (character-wise, ASCII-faithful). -/
def strToUpper (s : String) : String := String.mk (s.data.map Char.toUpper)

/-- JS `String.prototype.startsWith`. -/
def strStartsWith (s pre : String) : Bool := pre.data.isPrefixOf s.data

/-- JS `String.prototype.trim`. -/
def strTrim (s : String) : String :=
  String.mk (((s.data.dropWhile jsWs).reverse.dropWhile jsWs).reverse)

/-- Check whether `sub` occurs inside a character list. -/
def listIncl (sub : List Char) : List Char → Bool
  | [] => sub.isEmpty
  | c :: cs => sub.isPrefixOf (c :: cs) || listIncl sub cs

/-- Substring containment (JS `String.prototype.includes`). -/
def strIncludes (s sub : String) : Bool :=
  listIncl sub.data s.data

/-- Single character from a class. -/
def pOne (f : Char → Bool) : RxP := fun s =>
  match s with
  | c :: cs => if f c then [([c], [], cs)] else []
  | [] => []

/-- Capture group `(\d+\.?\d*)`. -/
def numG : RxP := pCap (pSeqs [pPlus Char.isDigit, pOpt (pLit "."), pStar Char.isDigit])

/-- Capture group `(\w+)`. -/
def wordG : RxP := pCap (pPlus jsWord)

/-- Alternation `(?:to|for)`. -/
def toForAlt : RxP := pAlt [pLit "to", pLit "for"]

/-- Alternation `(?:to|into)`. -/
def toIntoAlt : RxP := pAlt [pLit "to", pLit "into"]

/-- Alternation `(?:to|into|for)`. -/
def toIntoForAlt : RxP := pAlt [pLit "to", pLit "into", pLit "for"]

/-- Alternation `(?:all|everything|all\s+my)`. -/
def allAlt : RxP := pAlt [pLit "all", pLit "everything", pSeqs [pLit "all", pWsP, pLit "my"]]

/-- Matcher type for one JS regex applied with `String.prototype.match`. -/
abbrev Pattern := String → Option MatchRes

/-- `swap` pattern `/swap\s+(\d+\.?\d*)\s+(\w+)\s+(?:to|for)\s+(\w+)/i`. -/
def swapPat1 : Pattern :=
  reSearch (pSeqs [pLit "swap", pWsP, numG, pWsP, wordG, pWsP, toForAlt, pWsP, wordG])

/-- `swap` pattern `/convert\s+(\d+\.?\d*)\s+(\w+)\s+(?:to|into)\s+(\w+)/i`. -/
def swapPat2 : Pattern :=
  reSearch (pSeqs [pLit "convert", pWsP, numG, pWsP, wordG, pWsP, toIntoAlt, pWsP, wordG])

/-- `swap` pattern `/exchange\s+(\d+\.?\d*)\s+(\w+)\s+(?:to|for)\s+(\w+)/i`. -/
def swapPat3 : Pattern :=
  reSearch (pSeqs [pLit "exchange", pWsP, numG, pWsP, wordG, pWsP, toForAlt, pWsP, wordG])

/-- `swap` pattern `/trade\s+(\d+\.?\d*)\s+(\w+)\s+(?:to|for)\s+(\w+)/i`. -/
def swapPat4 : Pattern :=
  reSearch (pSeqs [pLit "trade", pWsP, numG, pWsP, wordG, pWsP, toForAlt, pWsP, wordG])

/-- `swap` pattern `/change\s+(\d+\.?\d*)\s+(\w+)\s+(?:to|into|for)\s+(\w+)/i`. -/
def swapPat5 : Pattern :=
  reSearch (pSeqs [pLit "change", pWsP, numG, pWsP, wordG, pWsP, toIntoForAlt, pWsP, wordG])

/-- `swap` pattern `/(\d+\.?\d*)\s+(\w+)\s+(?:to|into|for)\s+(\w+)/i` — the
generic numeric swap pattern. -/
def swapPat6 : Pattern :=
  reSearch (pSeqs [numG, pWsP, wordG, pWsP, toIntoForAlt, pWsP, wordG])

/-- `swap` pattern `/swap\s+(?:all|everything|all\s+my)\s+(\w+)\s+(?:to|for)\s+(\w+)/i`. -/
def swapPat7 : Pattern :=
  reSearch (pSeqs [pLit "swap", pWsP, allAlt, pWsP, wordG, pWsP, toForAlt, pWsP, wordG])

/-- `swap` pattern `/convert\s+(?:all|everything|all\s+my)\s+(\w+)\s+(?:to|into)\s+(\w+)/i`. -/
def swapPat8 : Pattern :=
  reSearch (pSeqs [pLit "convert", pWsP, allAlt, pWsP, wordG, pWsP, toIntoAlt, pWsP, wordG])

/-- `swap` pattern `/exchange\s+(?:all|everything|all\s+my)\s+(\w+)\s+(?:to|for)\s+(\w+)/i`. -/
def swapPat9 : Pattern :=
  reSearch (pSeqs [pLit "exchange", pWsP, allAlt, pWsP, wordG, pWsP, toForAlt, pWsP, wordG])

/-- `swap` pattern `/trade\s+(?:all|everything|all\s+my)\s+(\w+)\s+(?:to|for)\s+(\w+)/i`. -/
def swapPat10 : Pattern :=
  reSearch (pSeqs [pLit "trade", pWsP, allAlt, pWsP, wordG, pWsP, toForAlt, pWsP, wordG])

/-- `balance` pattern `/(?:check|show|what(?:'|i)?s\s+(?:my|the))\s+balance/i`. -/
def balancePat1 : Pattern :=
  reSearch (pSeqs [pAlt [pLit "check", pLit "show",
    pSeqs [pLit "what", pOpt (pAlt [pLit "\x27", pLit "i"]), pLit "s", pWsP,
      pAlt [pLit "my", pLit "the"]]], pWsP, pLit "balance"])

/-- `balance` pattern `/how\s+much\s+(?:\w+\s+)?(?:do\s+i\s+have|is\s+in\s+my\s+wallet)/i`. -/
def balancePat2 : Pattern :=
  reSearch (pSeqs [pLit "how", pWsP, pLit "much", pWsP, pOpt (pSeqs [pPlus jsWord, pWsP]),
    pAlt [pSeqs [pLit "do", pWsP, pLit "i", pWsP, pLit "have"],
          pSeqs [pLit "is", pWsP, pLit "in", pWsP, pLit "my", pWsP, pLit "wallet"]]])

/-- `balance` pattern `/balance\s+(?:of|for)\s+my\s+(?:wallet|account)/i`. -/
def balancePat3 : Pattern :=
  reSearch (pSeqs [pLit "balance", pWsP, pAlt [pLit "of", pLit "for"], pWsP, pLit "my",
    pWsP, pAlt [pLit "wallet", pLit "account"]])

/-- `balance` pattern `/my\s+balance/i`. -/
def balancePat4 : Pattern := reSearch (pSeqs [pLit "my", pWsP, pLit "balance"])

/-- `balance` pattern `/wallet\s+balance/i`. -/
def balancePat5 : Pattern := reSearch (pSeqs [pLit "wallet", pWsP, pLit "balance"])

/-- `tokenInfo` pattern
`/(?:tell|what|info|information)\s+(?:me|about|is)\s+(?:the\s+)?(?:token\s+)?(\w+)/i`. -/
def tokenInfoPat1 : Pattern :=
  reSearch (pSeqs [pAlt [pLit "tell", pLit "what", pLit "info", pLit "information"], pWsP,
    pAlt [pLit "me", pLit "about", pLit "is"], pWsP,
    pOpt (pSeqs [pLit "the", pWsP]), pOpt (pSeqs [pLit "token", pWsP]), wordG])

/-- `tokenInfo` pattern `/what\s+is\s+(\w+)(?:\s+token)?/i`. -/
def tokenInfoPat2 : Pattern :=
  reSearch (pSeqs [pLit "what", pWsP, pLit "is", pWsP, wordG, pOpt (pSeqs [pWsP, pLit "token"])])

/-- `tokenInfo` pattern `/explain\s+(\w+)(?:\s+token)?/i`. -/
def tokenInfoPat3 : Pattern :=
  reSearch (pSeqs [pLit "explain", pWsP, wordG, pOpt (pSeqs [pWsP, pLit "token"])])

/-- `tokenInfo` pattern `/(\w+)\s+info(?:rmation)?/i`. -/
def tokenInfoPat4 : Pattern :=
  reSearch (pSeqs [wordG, pWsP, pLit "info", pOpt (pLit "rmation")])

/-- `tokenInfo` pattern `/info\s+on\s+(\w+)/i`. -/
def tokenInfoPat5 : Pattern :=
  reSearch (pSeqs [pLit "info", pWsP, pLit "on", pWsP, wordG])

/-- `price` pattern `/price\s+of\s+(\w+)/i`. -/
def pricePat1 : Pattern := reSearch (pSeqs [pLit "price", pWsP, pLit "of", pWsP, wordG])

/-- `price` pattern `/what's\s+the\s+price\s+of\s+(\w+)/i`. -/
def pricePat2 : Pattern :=
  reSearch (pSeqs [pLit "what\x27s", pWsP, pLit "the", pWsP, pLit "price", pWsP,
    pLit "of", pWsP, wordG])

/-- Alternation `(?:on|from|for|during|in)`. -/
def onFromAlt : RxP := pAlt [pLit "on", pLit "from", pLit "for", pLit "during", pLit "in"]

/-- Alternation `(?:\s|$)`. -/
def wsOrEnd : RxP := pAlt [pOne jsWs, pEnd]

/-- `history` pattern `/(?:show|view|get|check)\s+(?:my\s+)?(?:transaction|tx)\s+history/i`. -/
def historyPat1 : Pattern :=
  reSearch (pSeqs [pAlt [pLit "show", pLit "view", pLit "get", pLit "check"], pWsP,
    pOpt (pSeqs [pLit "my", pWsP]), pAlt [pLit "transaction", pLit "tx"], pWsP, pLit "history"])

/-- `history` pattern `/(?:what|show)\s+(?:are|were)\s+my\s+(?:recent|last|previous)\s+transactions/i`. -/
def historyPat2 : Pattern :=
  reSearch (pSeqs [pAlt [pLit "what", pLit "show"], pWsP, pAlt [pLit "are", pLit "were"], pWsP,
    pLit "my", pWsP, pAlt [pLit "recent", pLit "last", pLit "previous"], pWsP, pLit "transactions"])

/-- `history` pattern `/(?:my|wallet)\s+(?:transaction|tx)\s+history/i`. -/
def historyPat3 : Pattern :=
  reSearch (pSeqs [pAlt [pLit "my", pLit "wallet"], pWsP, pAlt [pLit "transaction", pLit "tx"],
    pWsP, pLit "history"])

/-- `history` pattern `/(?:recent|last|previous)\s+transactions/i`. -/
def historyPat4 : Pattern :=
  reSearch (pSeqs [pAlt [pLit "recent", pLit "last", pLit "previous"], pWsP, pLit "transactions"])

/-- `history` pattern `/what\s+(?:did|have)\s+i\s+(?:do|done|transact)/i`. -/
def historyPat5 : Pattern :=
  reSearch (pSeqs [pLit "what", pWsP, pAlt [pLit "did", pLit "have"], pWsP, pLit "i", pWsP,
    pAlt [pLit "do", pLit "done", pLit "transact"]])

/-- `history` pattern `/transactions\s+(?:on|from|for|during|in)\s+(.+?)(?:\s|$)/i`. -/
def historyPat6 : Pattern :=
  reSearch (pSeqs [pLit "transactions", pWsP, onFromAlt, pWsP, pCap pDotLazyPlus, wsOrEnd])

/-- `history` pattern `/what\s+(?:happened|occurred|took place)\s+(?:on|from|for|during|in)\s+(.+?)(?:\s|$)/i`. -/
def historyPat7 : Pattern :=
  reSearch (pSeqs [pLit "what", pWsP, pAlt [pLit "happened", pLit "occurred", pLit "took place"],
    pWsP, onFromAlt, pWsP, pCap pDotLazyPlus, wsOrEnd])

/-- `history` pattern `/show\s+me\s+(?:transactions|activity)\s+(?:on|from|for|during|in)\s+(.+?)(?:\s|$)/i`. -/
def historyPat8 : Pattern :=
  reSearch (pSeqs [pLit "show", pWsP, pLit "me", pWsP, pAlt [pLit "transactions", pLit "activity"],
    pWsP, onFromAlt, pWsP, pCap pDotLazyPlus, wsOrEnd])

/-- `marketTrends` pattern `/(?:what|how)(?:'s| is| are)\s+(?:the\s+)?(?:market|markets)(?:\s+doing)?/i`. -/
def marketTrendsPat1 : Pattern :=
  reSearch (pSeqs [pAlt [pLit "what", pLit "how"], pAlt [pLit "\x27s", pLit " is", pLit " are"],
    pWsP, pOpt (pSeqs [pLit "the", pWsP]), pAlt [pLit "market", pLit "markets"],
    pOpt (pSeqs [pWsP, pLit "doing"])])

/-- `marketTrends` pattern `/market\s+(?:trend|trends|overview|update|sentiment)/i`. -/
def marketTrendsPat2 : Pattern :=
  reSearch (pSeqs [pLit "market", pWsP,
    pAlt [pLit "trend", pLit "trends", pLit "overview", pLit "update", pLit "sentiment"]])

/-- `marketTrends` pattern `/(?:what|which)\s+(?:token|tokens|coin|coins)(?:\s+are|\s+is)?\s+(?:trending|hot|popular)/i`. -/
def marketTrendsPat3 : Pattern :=
  reSearch (pSeqs [pAlt [pLit "what", pLit "which"], pWsP,
    pAlt [pLit "token", pLit "tokens", pLit "coin", pLit "coins"],
    pOpt (pAlt [pSeqs [pWsP, pLit "are"], pSeqs [pWsP, pLit "is"]]), pWsP,
    pAlt [pLit "trending", pLit "hot", pLit "popular"]])

/-- `marketTrends` pattern `/what\s+should\s+i\s+(?:buy|invest|trade)/i`. -/
def marketTrendsPat4 : Pattern :=
  reSearch (pSeqs [pLit "what", pWsP, pLit "should", pWsP, pLit "i", pWsP,
    pAlt [pLit "buy", pLit "invest", pLit "trade"]])

/-- `marketTrends` pattern `/(?:crypto|token|coin)\s+recommendations/i`. -/
def marketTrendsPat5 : Pattern :=
  reSearch (pSeqs [pAlt [pLit "crypto", pLit "token", pLit "coin"], pWsP, pLit "recommendations"])

/-- `help` pattern `/(?:help|assist|guide|tutorial|how\s+to\s+use)/i`. -/
def helpPat1 : Pattern :=
  reSearch (pAlt [pLit "help", pLit "assist", pLit "guide", pLit "tutorial",
    pSeqs [pLit "how", pWsP, pLit "to", pWsP, pLit "use"]])

/-- `help` pattern `/what\s+can\s+you\s+do/i`. -/
def helpPat2 : Pattern :=
  reSearch (pSeqs [pLit "what", pWsP, pLit "can", pWsP, pLit "you", pWsP, pLit "do"])

/-- `help` pattern `/(?:list|show)\s+(?:commands|features|abilities)/i`. -/
def helpPat3 : Pattern :=
  reSearch (pSeqs [pAlt [pLit "list", pLit "show"], pWsP,
    pAlt [pLit "commands", pLit "features", pLit "abilities"]])

/-- `help` pattern `/help\s+me/i`. -/
def helpPat4 : Pattern := reSearch (pSeqs [pLit "help", pWsP, pLit "me"])

/-- Transfer verb alternation `(?:send|transfer|pay|give)`. -/
def verbAlt : RxP := pAlt [pLit "send", pLit "transfer", pLit "pay", pLit "give"]

/-- Supported-token alternation
`(sol|usdc|usdt|bonk|jup|jto|ray|pyth|meme|wif)` (capturing). -/
def tokAltG : RxP :=
  pCap (pAlt [pLit "sol", pLit "usdc", pLit "usdt", pLit "bonk", pLit "jup",
    pLit "jto", pLit "ray", pLit "pyth", pLit "meme", pLit "wif"])

/-- Alternation `(?:to|for|into)`. -/
def toForIntoAlt : RxP := pAlt [pLit "to", pLit "for", pLit "into"]

/-- `transfer` pattern
`/(?:send|transfer|pay|give)\s+(\d+\.?\d*)\s+(sol|usdc|usdt|bonk|jup|jto|ray|pyth|meme|wif)(?:\s+(?:to|for|into))?/i`. -/
def transferPat1 : Pattern :=
  reSearch (pSeqs [verbAlt, pWsP, numG, pWsP, tokAltG, pOpt (pSeqs [pWsP, toForIntoAlt])])

/-- `transfer` pattern
`/(?:send|transfer|pay|give)\s+(\d+\.?\d*)\s+(sol|usdc|usdt|bonk|jup|jto|ray|pyth|meme|wif)(?:\s+(?:to|for|into)\s+)?.*/i`. -/
def transferPat2 : Pattern :=
  reSearch (pSeqs [verbAlt, pWsP, numG, pWsP, tokAltG,
    pOpt (pSeqs [pWsP, toForIntoAlt, pWsP]), pDotStar])

/-- Fast-path pattern used inside `parseUserIntent`:
`/^(?:send|transfer|pay|give)\s+(\d+\.?\d*)\s+(sol|usdc|usdt|bonk|jup|jto|ray|pyth|meme|wif)/i`. -/
def fastTransferPat : Pattern :=
  reAnchored (pSeqs [verbAlt, pWsP, numG, pWsP, tokAltG])

/-- `cryptoKnowledge` pattern `/(?:explain|what\s+is|tell\s+me\s+about|how\s+does)\s+(.+)\s+(?:work|mean|function)/i`. -/
def cryptoKnowledgePat1 : Pattern :=
  reSearch (pSeqs [pAlt [pLit "explain", pSeqs [pLit "what", pWsP, pLit "is"],
    pSeqs [pLit "tell", pWsP, pLit "me", pWsP, pLit "about"],
    pSeqs [pLit "how", pWsP, pLit "does"]], pWsP, pCap pDotPlus, pWsP,
    pAlt [pLit "work", pLit "mean", pLit "function"]])

/-- `cryptoKnowledge` pattern `/(?:explain|what\s+is|tell\s+me\s+about)\s+(.+)/i`. -/
def cryptoKnowledgePat2 : Pattern :=
  reSearch (pSeqs [pAlt [pLit "explain", pSeqs [pLit "what", pWsP, pLit "is"],
    pSeqs [pLit "tell", pWsP, pLit "me", pWsP, pLit "about"]], pWsP, pCap pDotPlus])

/-- `cryptoKnowledge` pattern `/(?:how\s+does|how\s+do)\s+(.+)\s+(?:work|function)/i`. -/
def cryptoKnowledgePat3 : Pattern :=
  reSearch (pSeqs [pAlt [pSeqs [pLit "how", pWsP, pLit "does"],
    pSeqs [pLit "how", pWsP, pLit "do"]], pWsP, pCap pDotPlus, pWsP,
    pAlt [pLit "work", pLit "function"]])

/-- `cryptoKnowledge` pattern `/(?:what|why|when|how)\s+(?:are|is|should|do|does)\s+(.+)/i`. -/
def cryptoKnowledgePat4 : Pattern :=
  reSearch (pSeqs [pAlt [pLit "what", pLit "why", pLit "when", pLit "how"], pWsP,
    pAlt [pLit "are", pLit "is", pLit "should", pLit "do", pLit "does"], pWsP, pCap pDotPlus])

/-- `marketAnalysis` pattern `/(?:market|price)\s+(?:analysis|outlook|prediction|forecast|trend)/i`. -/
def marketAnalysisPat1 : Pattern :=
  reSearch (pSeqs [pAlt [pLit "market", pLit "price"], pWsP,
    pAlt [pLit "analysis", pLit "outlook", pLit "prediction", pLit "forecast", pLit "trend"]])

/-- `marketAnalysis` pattern `/(?:what|how)(?:'s| is| are)\s+(?:the\s+)?(?:market|prices)(?:\s+doing)?/i`. -/
def marketAnalysisPat2 : Pattern :=
  reSearch (pSeqs [pAlt [pLit "what", pLit "how"], pAlt [pLit "\x27s", pLit " is", pLit " are"],
    pWsP, pOpt (pSeqs [pLit "the", pWsP]), pAlt [pLit "market", pLit "prices"],
    pOpt (pSeqs [pWsP, pLit "doing"])])

/-- `marketAnalysis` pattern `/(?:bull|bear)\s+(?:market|cycle|phase)/i`. -/
def marketAnalysisPat3 : Pattern :=
  reSearch (pSeqs [pAlt [pLit "bull", pLit "bear"], pWsP,
    pAlt [pLit "market", pLit "cycle", pLit "phase"]])

/-- `marketAnalysis` pattern `/(?:crypto|market)\s+(?:sentiment|feeling|outlook)/i`. -/
def marketAnalysisPat4 : Pattern :=
  reSearch (pSeqs [pAlt [pLit "crypto", pLit "market"], pWsP,
    pAlt [pLit "sentiment", pLit "feeling", pLit "outlook"]])

/-- `investmentEducation` pattern `/(?:how|what)\s+(?:to|should\s+I)\s+(?:invest|investing)/i`. -/
def investmentEducationPat1 : Pattern :=
  reSearch (pSeqs [pAlt [pLit "how", pLit "what"], pWsP,
    pAlt [pLit "to", pSeqs [pLit "should", pWsP, pLit "I"]], pWsP,
    pAlt [pLit "invest", pLit "investing"]])

/-- `investmentEducation` pattern `/(?:investment|investing)\s+(?:strategy|strategies|advice|tips)/i`. -/
def investmentEducationPat2 : Pattern :=
  reSearch (pSeqs [pAlt [pLit "investment", pLit "investing"], pWsP,
    pAlt [pLit "strategy", pLit "strategies", pLit "advice", pLit "tips"]])

/-- `investmentEducation` pattern `/(?:portfolio|risk)\s+(?:management|allocation|diversification)/i`. -/
def investmentEducationPat3 : Pattern :=
  reSearch (pSeqs [pAlt [pLit "portfolio", pLit "risk"], pWsP,
    pAlt [pLit "management", pLit "allocation", pLit "diversification"]])

/-- `investmentEducation` pattern `/(?:teach|explain|educate)\s+(?:me|about)\s+(?:investing|investment)/i`. -/
def investmentEducationPat4 : Pattern :=
  reSearch (pSeqs [pAlt [pLit "teach", pLit "explain", pLit "educate"], pWsP,
    pAlt [pLit "me", pLit "about"], pWsP, pAlt [pLit "investing", pLit "investment"]])

/-- `CONVERSATION_PATTERNS.greeting` pattern
`/^(?:hi|hello|hey|howdy|greetings|good\s+(?:morning|afternoon|evening)|what'?s\s+up)/i`. -/
def greetingPat1 : Pattern :=
  reAnchored (pAlt [pLit "hi", pLit "hello", pLit "hey", pLit "howdy", pLit "greetings",
    pSeqs [pLit "good", pWsP, pAlt [pLit "morning", pLit "afternoon", pLit "evening"]],
    pSeqs [pLit "what", pOpt (pLit "\x27"), pLit "s", pWsP, pLit "up"]])

/-- `CONVERSATION_PATTERNS.farewell` pattern
`/^(?:bye|goodbye|see\s+you|farewell|later|have\s+a\s+(?:good|nice|great)\s+(?:day|night|evening))/i`. -/
def farewellPat1 : Pattern :=
  reAnchored (pAlt [pLit "bye", pLit "goodbye", pSeqs [pLit "see", pWsP, pLit "you"],
    pLit "farewell", pLit "later",
    pSeqs [pLit "have", pWsP, pLit "a", pWsP, pAlt [pLit "good", pLit "nice", pLit "great"],
      pWsP, pAlt [pLit "day", pLit "night", pLit "evening"]]])

/-- `CONVERSATION_PATTERNS.thanks` pattern
`/^(?:thanks|thank\s+you|thx|ty|appreciate\s+(?:it|you))/i`. -/
def thanksPat1 : Pattern :=
  reAnchored (pAlt [pLit "thanks", pSeqs [pLit "thank", pWsP, pLit "you"], pLit "thx",
    pLit "ty", pSeqs [pLit "appreciate", pWsP, pAlt [pLit "it", pLit "you"]]])

/-- `CONVERSATION_PATTERNS.identity` pattern `/(?:who|what)\s+are\s+you/i`. -/
def identityPat1 : Pattern :=
  reSearch (pSeqs [pAlt [pLit "who", pLit "what"], pWsP, pLit "are", pWsP, pLit "you"])

/-- `CONVERSATION_PATTERNS.identity` pattern `/tell\s+(?:me\s+)?about\s+yourself/i`. -/
def identityPat2 : Pattern :=
  reSearch (pSeqs [pLit "tell", pWsP, pOpt (pSeqs [pLit "me", pWsP]), pLit "about",
    pWsP, pLit "yourself"])

/-- `CONVERSATION_PATTERNS.capabilities` pattern `/what\s+can\s+you\s+do/i`. -/
def capabilitiesPat1 : Pattern :=
  reSearch (pSeqs [pLit "what", pWsP, pLit "can", pWsP, pLit "you", pWsP, pLit "do"])

/-- `CONVERSATION_PATTERNS.capabilities` pattern `/help\s+me\s+with/i`. -/
def capabilitiesPat2 : Pattern :=
  reSearch (pSeqs [pLit "help", pWsP, pLit "me", pWsP, pLit "with"])

/-- `CONVERSATION_PATTERNS.capabilities` pattern `/how\s+does\s+this\s+(?:work|app\s+work)/i`. -/
def capabilitiesPat3 : Pattern :=
  reSearch (pSeqs [pLit "how", pWsP, pLit "does", pWsP, pLit "this", pWsP,
    pAlt [pLit "work", pSeqs [pLit "app", pWsP, pLit "work"]]])

/-- `CONVERSATION_PATTERNS.joke` pattern `/tell\s+(?:me\s+)?a\s+(?:joke|crypto\s+joke)/i`. -/
def jokePat1 : Pattern :=
  reSearch (pSeqs [pLit "tell", pWsP, pOpt (pSeqs [pLit "me", pWsP]), pLit "a", pWsP,
    pAlt [pLit "joke", pSeqs [pLit "crypto", pWsP, pLit "joke"]]])

/-- History-handler helper pattern `/(?:on|from|for|during|in)\s+(.+?)(?:\s|$)/i`. -/
def datePat1 : Pattern :=
  reSearch (pSeqs [onFromAlt, pWsP, pCap pDotLazyPlus, wsOrEnd])

/-- History-handler helper pattern `/(.+?)\s+transactions/i`. -/
def datePat2 : Pattern :=
  reSearch (pSeqs [pCap pDotLazyPlus, pWsP, pLit "transactions"])

/-- Try word-boundary alternatives at one position (`\b(a|b|…)\b`): the
alternative must match case-insensitively and be followed by a non-word
character or the end of input. -/
def tryBoundedAlts : List String → List Char → Option String
  | [], _ => none
  | a :: rest, s =>
    match stripCI a.data s with
    | some (con, rst) =>
      if rst.head?.elim true (fun c => !jsWord c) then some (String.mk con)
      else tryBoundedAlts rest s
    | none => tryBoundedAlts rest s

/-- Leftmost scan for `\b(a|b|…)\b`, tracking whether the previous
character was a word character (the left boundary). -/
def findBoundedAux (alts : List String) : Bool → List Char → Option String
  | _, [] => none
  | prev, c :: cs =>
    match (if prev then none else tryBoundedAlts alts (c :: cs)) with
    | some t => some t
    | none => findBoundedAux alts (jsWord c) cs

/-- First match of a word-bounded alternation in a string (models
`input.match(/\b(a|b|…)\b/i)[0]`). -/
def findBounded (alts : List String) (s : String) : Option String :=
  findBoundedAux alts false s.data

/-- First pattern of a list that matches (the inner pattern loop of the
router and of `handleGeneralChat`). -/
def firstMatch : List Pattern → String → Option MatchRes
  | [], _ => none
  | p :: ps, s =>
    match p s with
    | some m => some m
    | none => firstMatch ps s

deriving instance DecidableEq for Except

/-- External transaction record (contents opaque to this module; produced
and consumed only by the external history service). -/
abbrev Tx := String

/-- Typed model of the untyped `intent` objects the handlers return.  The
constructor tag models the `action` field; `Option` fields model values
that may be `undefined`/`NaN` in JS. -/
inductive Intent where
  | swap (token : Option String) (price : Option ℚ)
  | balance (address : Option String)
  | tokenInfo (token : String)
  | price (token : Option String)
  | history (success : Bool) (transactions : Option (List Tx))
  | marketTrends
  | help
  | transfer (recipient : String) (amount : ℚ) (token : String)
  | cryptoKnowledge (topic : String)
  | marketAnalysis (expertiseLevel : String)
  | investmentEducation (topic : String)
deriving DecidableEq, Repr

/-- Handler/router result shape `{message, intent?, suggestions?}`;
`none` models both `null` and an absent field. -/
structure Response where
  message : String
  intent : Option Intent := none
  suggestions : Option (List String) := none
deriving DecidableEq, Repr

/-- The request context threaded into `parseUserIntent` and the handlers
(`walletConnected`, `walletAddress`, `balance`, `tokenBalances`, plus the
`originalPrompt` added by the enhanced context and the `expertiseLevel`
read by the market-analysis handler). -/
structure Ctx where
  walletConnected : Bool
  walletAddress : Option String
  balance : ℚ
  tokenBalances : List (String × ℚ) := []
  expertiseLevel : Option String := none
  originalPrompt : Option String := none
deriving DecidableEq, Repr

/-- Transaction-history query object built by the history handler. -/
structure TxQuery where
  limit : Nat
  dateRange : Option (Option Int × Option Int) := none
  token : Option String := none
  type : Option String := none
deriving DecidableEq, Repr

/-- External collaborators and nondeterminism sources, as oracles.
`Except.error` models a thrown exception; `Bool` fields model the
individual `Math.random() > θ` draws in `getPersonalizedTips`; `pick k`
models `Math.floor(Math.random() * len)` at the `k`-th selection site of
`handleGeneralChat`; `numStr` models default JS number-to-string
conversion inside template literals. -/
structure Collab where
  detectSolanaAddress : String → Except String (Option String)
  fetchTokenPrice : String → Except String (Option ℚ)
  now : Int
  parseDateQuery : String → Option Int × Option Int
  getTransactionsForDateRange : Option String → TxQuery → Except String (Option (List Tx))
  formatTransactionsForDisplay : List Tx → String
  getMarketAnalysis : String → Except String Unit
  numStr : ℚ → String
  rndTipSwapAfterBalance : Bool
  rndTipTokenAfterSwap : Bool
  rndTipMarketTrends : Bool
  rndTipHistory : Bool
  pick : Nat → Nat

/-- One entry of the static token registry `TOKEN_INFO`. -/
structure TokenData where
  name : String
  decimals : Nat
  description : String
  useCases : String
  price_range : String
  trend_indicators : List String
  category : String
  year_launched : Nat
  market_sentiment : String
  issuer : String
deriving DecidableEq, Repr

/-- The static token registry, in object-literal insertion order. -/
def TOKEN_INFO : List (String × TokenData) := [
  ("SOL", { name := "Solana", decimals := 9,
              description := "Native token of the Solana blockchain, known for high throughput and low fees",
              useCases := "Transaction fees, staking, governance, DeFi collateral",
              price_range := "$20-$100 historically",
              trend_indicators := ["Ecosystem growth", "Developer activity", "DeFi TVL"],
              category := "L1 blockchain", year_launched := 2020,
              market_sentiment := "Bullish after 2023 recovery", issuer := "Solana Foundation" }),
  ("USDC", { name := "USD Coin", decimals := 6,
              description := "A regulated stablecoin pegged to the US dollar issued by Circle",
              useCases := "Store of value, trading pairs, cross-border payments, yield farming",
              price_range := "~$1.00 (stablecoin)",
              trend_indicators := ["Regulatory compliance", "Corporate adoption"],
              category := "Stablecoin", year_launched := 2018,
              market_sentiment := "Stable", issuer := "Circle" }),
  ("USDT", { name := "Tether", decimals := 6,
              description := "The largest stablecoin by market cap, pegged to the US dollar",
              useCases := "Trading pairs, store of value, global payments",
              price_range := "~$1.00 (stablecoin)",
              trend_indicators := ["Exchange reserves", "Regulatory scrutiny"],
              category := "Stablecoin", year_launched := 2014,
              market_sentiment := "Stable", issuer := "Tether Limited" }),
  ("BONK", { name := "Bonk", decimals := 5,
              description := "A community-focused Solana meme coin with the Shiba Inu dog mascot",
              useCases := "Community engagement, tipping, NFT purchases on Solana",
              price_range := "High volatility meme token",
              trend_indicators := ["Social media mentions", "Community engagement", "Whale movements"],
              category := "Meme coin", year_launched := 2022,
              market_sentiment := "Cyclical hype patterns", issuer := "Bonk Community" }),
  ("JUP", { name := "Jupiter", decimals := 6,
              description := "Governance token for Jupiter, Solana\x27s leading DEX aggregator",
              useCases := "Governance, fee sharing, liquidity provision incentives",
              price_range := "Trending upward since 2024 launch",
              trend_indicators := ["Trading volume", "TVL growth", "Protocol revenue"],
              category := "DEX token", year_launched := 2024,
              market_sentiment := "Strong as leading Solana DEX", issuer := "Jupiter Community" }),
  ("JTO", { name := "Jito", decimals := 9,
              description := "Governance token for Jito\x27s MEV infrastructure on Solana",
              useCases := "Governance, staking, revenue sharing",
              price_range := "Stable with growth potential",
              trend_indicators := ["Validator adoption", "Solana block production stats"],
              category := "Infrastructure token", year_launched := 2023,
              market_sentiment := "Technical adoption focus", issuer := "Jito Network" }),
  ("RAY", { name := "Raydium", decimals := 6,
              description := "AMM and liquidity provider on Solana with concentrated liquidity features",
              useCases := "Trading, liquidity provision, yield farming",
              price_range := "DeFi token with moderate volatility",
              trend_indicators := ["TVL", "Trading fees generated", "New pool launches"],
              category := "DEX token", year_launched := 2021,
              market_sentiment := "Recovering alongside Solana DeFi ecosystem", issuer := "Raydium Community" }),
  ("PYTH", { name := "Pyth Network", decimals := 6,
              description := "Oracle protocol providing real-time market data across blockchains",
              useCases := "Governance, staking for data validation",
              price_range := "Varies with market conditions",
              trend_indicators := ["Growing adoption", "Strong community"],
              category := "Oracle token", year_launched := 2023,
              market_sentiment := "Positive", issuer := "Pyth Network" }),
  ("MEME", { name := "Memecoin", decimals := 6,
              description := "Multi-chain meme token focused on internet culture and humor",
              useCases := "Community engagement, memetic value",
              price_range := "Highly volatile, follows meme cycles",
              trend_indicators := ["Social media virality", "Celebrity mentions", "New exchange listings"],
              category := "Meme coin", year_launched := 2023,
              market_sentiment := "Follows broader meme coin trends", issuer := "Memecoin Community" }),
  ("WIF", { name := "Dogwifhat", decimals := 6,
              description := "Solana meme coin featuring a dog wearing a pink hat, went viral in 2023",
              useCases := "Community status, NFT integration",
              price_range := "Extremely volatile, reached major peaks in 2023-2024",
              trend_indicators := ["Twitter mentions", "Influencer activity", "New listings"],
              category := "Meme coin", year_launched := 2023,
              market_sentiment := "One of Solana\x27s most successful meme coins", issuer := "Dogwifhat Community" }),
  ("AKT", { name := "Akash Network Token", decimals := 6,
              description := "Decentralized cloud computing token",
              useCases := "Decentralized cloud computing",
              price_range := "Varies with market conditions",
              trend_indicators := ["Growing adoption", "Strong community"],
              category := "Infrastructure", year_launched := 2020,
              market_sentiment := "Positive", issuer := "Akash Network" })]

/-- Registry lookup (`TOKEN_INFO[tokenSymbol]`). -/
def lookupTokenData (sym : String) : Option TokenData :=
  (TOKEN_INFO.find? (fun e => e.1 = sym)).map (·.2)

/-- `Object.keys(TOKEN_INFO)` in insertion order. -/
def tokenInfoKeys : List String := TOKEN_INFO.map (·.1)

/-- `GENERAL_KNOWLEDGE.greetings`. -/
def greetingsPool : List String := [
  "Hello! How can I help with your Web3 journey today?",
  "Hi there! I\x27m your AI assistant for Web3 and crypto. What can I do for you?",
  "Hey! Ready to explore the blockchain world together?"]

/-- `GENERAL_KNOWLEDGE.thanks`. -/
def thanksPool : List String := [
  "You\x27re welcome! Happy to assist with your crypto needs.",
  "Anytime! Let me know if you need anything else related to blockchain.",
  "Glad I could help! Feel free to ask more about Web3."]

/-- `GENERAL_KNOWLEDGE.identity`. -/
def identityPool : List String := [
  "I\x27m an AI assistant specialized in Web3 and cryptocurrency. While I can chat about general topics, I\x27m most knowledgeable about blockchain technology, Solana, and token swaps.",
  "I\x27m your Web3 AI Wallet assistant. I can help with token swaps, provide crypto information, and chat about various topics, though my expertise is in blockchain."]

/-- `GENERAL_KNOWLEDGE.capabilities`. -/
def capabilitiesPool : List String := [
  "I can help you swap tokens on Solana, check token prices and balances, provide information about cryptocurrencies, and chat about various topics. Try asking me to \x27Swap 1 SOL to USDC\x27 or \x27Tell me about NFTs\x27."]

/-- `CRYPTO_JOKES`. -/
def CRYPTO_JOKES : List String := [
  "Why don\x27t programmers like nature? It has too many bugs and no debugging tools!",
  "Why did the blockchain go to therapy? It had too many trust issues!",
  "How many Bitcoin miners does it take to change a lightbulb? 21 million, but only one gets the reward!",
  "Why did the crypto investor go to the dentist? Because of the tooth decay... just like their portfolio in a bear market!",
  "What do you call a cryptocurrency investor who finally breaks even? A miracle!"]

/-- `userPreferences` sub-object of the conversation context. -/
structure UserPreferences where
  favoriteTokens : List String := []
  swapHistory : List (String × String × String) := []
  preferredActions : List String := []
  interactionStyle : String := "neutral"
deriving DecidableEq, Repr

/-- The mutable `conversationContext` object, modelled as explicit state.
`sessionStartTime` (`Date.now()` at creation) is never read, so it is
fixed to `0` in the model. -/
structure ConversationContext where
  recentTopics : List String := []
  recentTokens : List String := []
  userPreferences : UserPreferences := {}
  sessionStartTime : Int := 0
  suggestedNextActions : List String := []
deriving DecidableEq, Repr

/-- The initial value of `conversationContext`. -/
def initialConversationContext : ConversationContext := {}

/-- `array.unshift(x)` followed by `if (array.length > cap) array.pop()`:
most-recent-first insertion with tail eviction. -/
def unshiftCapped (cap : Nat) (x : String) (l : List String) : List String :=
  let l2 := x :: l
  if l2.length > cap then l2.dropLast else l2

/-- `generateSuggestions`: recompute `suggestedNextActions` from the most
recent topic, keeping at most the first three generated strings. -/
def generateSuggestions (cc : ConversationContext) : ConversationContext :=
  let s1 := if cc.recentTopics.head? = some "balance" then
      ["Swap 1 SOL to USDC", "Show my transaction history"] else []
  let s2 :=
    match cc.recentTopics.head?, strTruthy cc.recentTokens.head? with
    | some "tokenInfo", some token =>
      (if token ≠ "SOL" then ["Swap 10 " ++ token ++ " to SOL"]
       else ["Swap 1 SOL to " ++ ((strTruthy cc.userPreferences.favoriteTokens.head?).getD "USDC")])
      ++ ["What are the market trends?"]
    | _, _ => []
  let s3 := if cc.recentTopics.head? = some "marketTrends" then
      ["Tell me about " ++ ((strTruthy cc.recentTokens.head?).getD "JUP"), "Check my balance"]
    else []
  let s4 := if cc.recentTopics.head? = some "history" then
      ["Check my balance", "What are the market trends?"] else []
  let s5 := if cc.recentTopics.head? = some "swap" then
      ["Check my balance", "Show my transaction history"] else []
  let all := s1 ++ s2 ++ s3 ++ s4 ++ s5
  let all := if all.isEmpty then
      ["What tokens do you support?", "Check my balance", "What are the market trends?"]
    else all
  { cc with suggestedNextActions := all.take 3 }

/-- The technical vocabulary scanned by the style inference. -/
def technicalTerms : List String :=
  ["tvl", "liquidity", "amm", "slippage", "liquidity pool", "apy", "yield"]

/-- The casual vocabulary scanned by the style inference. -/
def casualTerms : List String :=
  ["moon", "dump", "pump", "wen", "lambo", "fomo", "yolo"]

/-- Body of the `for (const token of tokensMentioned)` loop: push the
token onto `recentTokens` (cap 10) and, if new, onto `favoriteTokens`
(cap 5). -/
def insertRecentToken (cc : ConversationContext) (token : String) : ConversationContext :=
  let cc := { cc with recentTokens := unshiftCapped 10 token cc.recentTokens }
  if cc.userPreferences.favoriteTokens.contains token then cc
  else { cc with userPreferences := { cc.userPreferences with
           favoriteTokens := unshiftCapped 5 token cc.userPreferences.favoriteTokens } }

/-- The `if (matchedOperation)` block of `updateConversationContext`:
push the operation onto `recentTopics` (cap 8) and, if new, onto
`preferredActions` (cap 3).  `none` models the `null` argument (operation
names are never empty, so JS truthiness coincides with `Option.isSome`). -/
def insertTopicStep (matchedOperation : Option String) (cc : ConversationContext) :
    ConversationContext :=
  match matchedOperation with
  | some op =>
    let cc := { cc with recentTopics := unshiftCapped 8 op cc.recentTopics }
    if cc.userPreferences.preferredActions.contains op then cc
    else { cc with userPreferences := { cc.userPreferences with
             preferredActions := unshiftCapped 3 op cc.userPreferences.preferredActions } }
  | none => cc

/-- The interaction-style inference block of `updateConversationContext`:
two disjoint vocabularies; the style changes only on an unambiguous
signal. -/
def applyStyleStep (userInput : String) (cc : ConversationContext) : ConversationContext :=
  let lowerInput := strToLower userInput
  let hasTechnical := technicalTerms.any (fun t => strIncludes lowerInput t)
  let hasCasual := casualTerms.any (fun t => strIncludes lowerInput t)
  if hasTechnical && !hasCasual then
    { cc with userPreferences := { cc.userPreferences with interactionStyle := "technical" } }
  else if hasCasual && !hasTechnical then
    { cc with userPreferences := { cc.userPreferences with interactionStyle := "casual" } }
  else cc

/-- `updateConversationContext` assembled from its blocks in source
order: topic/action push, token pushes, style inference, suggestion
regeneration. -/
def updateConversationContext (userInput : String) (matchedOperation : Option String)
    (tokensMentioned : List String) (cc : ConversationContext) : ConversationContext :=
  generateSuggestions
    (applyStyleStep userInput
      (tokensMentioned.foldl insertRecentToken
        (insertTopicStep matchedOperation cc)))

/-- `getPersonalizedTips(context)`: the `Math.random() > θ` draws are the
Boolean oracles in `Collab`; a candidate whose non-random conjunct fails
never consumes a draw, and the second candidate falls through when no
favorite/recent token is truthy, exactly as in the source. -/
def getPersonalizedTips (C : Collab) (cc : ConversationContext) (context : Ctx) : Option String :=
  if cc.recentTopics.contains "balance" && !(cc.recentTopics.contains "swap")
     && C.rndTipSwapAfterBalance then
    some "Tip: You can swap your SOL for other tokens by typing \x27Swap 1 SOL to USDC\x27."
  else
    match (if cc.recentTopics.contains "swap" && !(cc.recentTopics.contains "tokenInfo")
              && C.rndTipTokenAfterSwap then
             strTruthy (jsOrStr cc.userPreferences.favoriteTokens.head? cc.recentTokens.head?)
           else none) with
    | some favoriteToken =>
      some ("Tip: You can learn more about " ++ favoriteToken ++ " by asking \"Tell me about "
        ++ favoriteToken ++ "\".")
    | none =>
      if context.walletConnected && context.balance < 1 / 20 then
        some "Tip: Your SOL balance is low. You\x27ll need SOL to pay for transaction fees when swapping tokens."
      else if !(cc.recentTopics.contains "marketTrends") && cc.recentTokens.length > 0
              && C.rndTipMarketTrends then
        some "Tip: Ask \x27What are the market trends?\x27 to get insights on current token performance."
      else if context.walletConnected && cc.recentTopics.length > 2
              && !(cc.recentTopics.contains "history") && C.rndTipHistory then
        some "Tip: You can view your recent transactions by asking \x27Show my transaction history\x27."
      else none

/-- `handleGeneralChat(prompt)`: category patterns are tried in declared
order; random pool picks are modelled by the `pick` oracle reduced into
range. -/
def handleGeneralChat (C : Collab) (prompt : String) : Response :=
  if (firstMatch [greetingPat1] prompt).isSome then
    { message := greetingsPool.getD (C.pick 0 % greetingsPool.length) "" }
  else if (firstMatch [farewellPat1] prompt).isSome then
    { message := "Goodbye! Feel free to return whenever you have Web3 questions or want to make transactions." }
  else if (firstMatch [thanksPat1] prompt).isSome then
    { message := thanksPool.getD (C.pick 1 % thanksPool.length) "" }
  else if (firstMatch [identityPat1, identityPat2] prompt).isSome then
    { message := identityPool.getD (C.pick 2 % identityPool.length) "" }
  else if (firstMatch [capabilitiesPat1, capabilitiesPat2, capabilitiesPat3] prompt).isSome then
    { message := capabilitiesPool.getD (C.pick 3 % capabilitiesPool.length) "" }
  else if (firstMatch [jokePat1] prompt).isSome then
    { message := CRYPTO_JOKES.getD (C.pick 4 % CRYPTO_JOKES.length) "" }
  else
    { message := "I\x27m here to help with Web3 and blockchain topics primarily! You can ask me to swap tokens, check prices, or learn about crypto concepts. I can also chat about other topics, but my expertise is in the blockchain space." }

/-- Price cache (`cachedTokenPrices`): symbol, price, fetch timestamp. -/
abbrev PriceCache := List (String × ℚ × Int)

/-- Cache entry lookup. -/
def cacheLookup (cache : PriceCache) (sym : String) : Option (ℚ × Int) :=
  (cache.find? (fun e => e.1 = sym)).map (·.2)

/-- The fetch-with-60-second-cache step shared by the balance and
token-info handlers.  The write-back into the global cache is a side
effect that never influences the returned response and is dropped. -/
def getPriceCached (C : Collab) (cache : PriceCache) (sym : String) : Except String (Option ℚ) :=
  match cacheLookup cache sym with
  | some (p, ts) => if C.now - ts < 60000 then .ok (some p) else C.fetchTokenPrice sym
  | none => C.fetchTokenPrice sym

/-- `OPERATIONS.swap.handler`.  The defensive `if (!match)` branch is
unreachable (the router only invokes handlers with a successful match)
and is therefore not modelled.  Note the emitted intent carries
`token: match[2]` — the *source* token of the swap — and
`price: parseFloat(match[1])` — the amount. -/
def swapHandler (m : MatchRes) (_context : Ctx) : Except String Response :=
  .ok { message := "Swap operation initiated",
        intent := some (.swap (m.g 2) ((m.g 1).bind parseFloatQ)) }

/-- `OPERATIONS.balance.handler`. -/
def balanceHandler (C : Collab) (cache : PriceCache) (_m : MatchRes) (context : Ctx) :
    Except String Response :=
  if !context.walletConnected then
    .ok { message := "Please connect your wallet first to check your balance.", intent := none }
  else
    let priceInfo :=
      match getPriceCached C cache "SOL" with
      | .error _ => ""
      | .ok none => ""
      | .ok (some solPrice) =>
        if solPrice = 0 then ""
        else " (≈$" ++ toFixedStr 2 (context.balance * solPrice) ++ ")"
    .ok { message := "Your current wallet balance is " ++ toFixedStr 4 context.balance
            ++ " SOL" ++ priceInfo ++ " ("
            ++ ((context.walletAddress.map (strSliceTo 4)).getD "undefined") ++ "..."
            ++ ((context.walletAddress.map (strSliceLast 4)).getD "undefined")
            ++ "). You can use this balance to swap tokens or perform other operations.",
          intent := some (.balance context.walletAddress) }

/-- `OPERATIONS.tokenInfo.handler`. -/
def tokenInfoHandler (C : Collab) (cache : PriceCache) (m : MatchRes) (_context : Ctx) :
    Except String Response := do
  let raw ← match m.g 1 with
    | some s => Except.ok s
    | none => Except.error "TypeError: match[1] is undefined"
  let tokenSymbol := strToUpper raw
  match lookupTokenData tokenSymbol with
  | none =>
    .ok { message := "I don\x27t have information about " ++ raw
            ++ ". Currently I have data on: " ++ String.intercalate ", " tokenInfoKeys,
          intent := none }
  | some info =>
    let priceInfo :=
      match getPriceCached C cache tokenSymbol with
      | .error _ => ""
      | .ok none => ""
      | .ok (some tokenPrice) =>
        if tokenPrice = 0 then ""
        else "\n\nCurrent price: $"
          ++ toFixedStr (if tokenSymbol = "BONK" || tokenSymbol = "WIF" then 8 else 2) tokenPrice
    let msg := tokenSymbol ++ " (" ++ info.name ++ "): " ++ info.description ++ ". It has "
      ++ toString info.decimals ++ " decimals and is commonly used for " ++ info.useCases ++ "."
    let msg := msg ++ "\n\nCategory: " ++ info.category
    let msg := if info.year_launched ≠ 0 then msg ++ ", Launched: " ++ toString info.year_launched
      else msg
    let msg := msg ++ "\nPrice history: " ++ info.price_range
    let msg := if info.market_sentiment ≠ "" then msg ++ "\nMarket sentiment: " ++ info.market_sentiment
      else msg
    let msg := msg ++ priceInfo
    let msg := if info.trend_indicators.length > 0 then
        msg ++ "\n\nKey trend indicators: " ++ String.intercalate ", " info.trend_indicators
      else msg
    .ok { message := msg, intent := some (.tokenInfo tokenSymbol) }

/-- `OPERATIONS.price.handler` (the defensive `if (!match)` branch is
unreachable at call sites). -/
def priceHandler (m : MatchRes) (_context : Ctx) : Except String Response :=
  .ok { message := "Fetching price information", intent := some (.price (m.g 1)) }

/-- Date-text extraction loop of the history handler: the first of the two
`datePatterns` whose match has a truthy first group. -/
def datePatternText (input : String) : Option String :=
  match (datePat1 input).bind (fun m => strTruthy (m.g 1)) with
  | some t => some t
  | none => (datePat2 input).bind (fun m => strTruthy (m.g 1))

/-- `OPERATIONS.history.handler`. -/
def historyHandler (C : Collab) (m : MatchRes) (context : Ctx) : Except String Response :=
  if !context.walletConnected then
    .ok { message := "Please connect your wallet first to view your transaction history.",
          intent := none }
  else
    let dateTextOpt := (datePatternText m.input).map strTrim
    let tokenFound := findBounded ["sol", "usdc", "bonk", "jup", "usdt", "wif", "meme", "jto"] m.input
    let typeFound := findBounded ["swap", "transfer", "send", "receive"] m.input
    let dateRangeVal :=
      match dateTextOpt with
      | some dt =>
        let dr := C.parseDateQuery dt
        if dr.1.isSome || dr.2.isSome then some dr else none
      | none => none
    let tokenVal := tokenFound.map strToUpper
    let typeVal := typeFound.map (fun t =>
      let ty := strToLower t
      if ty = "send" || ty = "receive" then "transfer" else ty)
    let query : TxQuery := ⟨10, dateRangeVal, tokenVal, typeVal⟩
    match C.getTransactionsForDateRange context.walletAddress query with
    | .error _ =>
      .ok { message := "I encountered an error while trying to fetch your transaction history. Please try again later.",
            intent := some (.history false none) }
    | .ok transactions =>
      if transactions.elim true (fun l => l.length = 0) then
        .ok { message := "I couldn\x27t find any transactions"
                ++ (match dateTextOpt with | some dt => " for " ++ dt | none => "")
                ++ (match query.token with | some tk => " involving " ++ tk | none => "")
                ++ (match query.type with | some ty => " of type " ++ ty | none => "")
                ++ ". This could be because there was no activity during this period, or the transaction history is not available through the API.",
              intent := some (.history false none) }
      else
        let txs := transactions.getD []
        .ok { message := "Here are "
                ++ (match dateTextOpt with
                    | some dt => "your transactions for " ++ dt
                    | none => "your recent transactions")
                ++ (match query.token with | some tk => " involving " ++ tk | none => "")
                ++ (match query.type with | some ty => " of type " ++ ty | none => "")
                ++ ":\n\n" ++ C.formatTransactionsForDisplay txs
                ++ "\n\nYou can see your full transaction history on Solana Explorer: https://explorer.solana.com/address/"
                ++ (context.walletAddress.getD "null"),
              intent := some (.history true (some txs)) }

/-- `OPERATIONS.marketTrends.handler`. -/
def marketTrendsHandler (context : Ctx) : Except String Response :=
  .ok { message := "\n## Current Market Trends\n\n"
          ++ "The crypto market is showing a bullish pattern in the last 24 hours with most major assets gaining value."
          ++ "\n\n**Top gainers:**\n" ++ "SOL (+8.2%), JUP (+15.4%), WIF (+23.1%)"
          ++ "\n\n**Top losers:**\n" ++ "Some Token (-3.2%), Another Token (-2.1%)"
          ++ "\n\n**Solana ecosystem:**\n"
          ++ "The Solana ecosystem is outperforming the broader market with increased DeFi activity."
          ++ "\n\n"
          ++ (if context.walletConnected then
                "Based on your wallet holdings, you might be interested in keeping an eye on SOL price movements."
              else
                "Connect your wallet for personalized market insights based on your holdings.")
          ++ "\n",
        intent := some .marketTrends }

/-- `OPERATIONS.help.handler`. -/
def helpHandler (context : Ctx) : Except String Response :=
  let connectionStatus :=
    if context.walletConnected then
      "Your wallet (" ++ ((context.walletAddress.map (strSliceTo 4)).getD "undefined") ++ "..."
        ++ ((context.walletAddress.map (strSliceLast 4)).getD "undefined")
        ++ ") is connected with " ++ toFixedStr 4 context.balance ++ " SOL."
    else "Please connect your wallet to access all features."
  .ok { message := "I\x27m your advanced Web3 AI assistant. " ++ connectionStatus
          ++ "\n\nHere\x27s what I can help you with:\n\n1. **Token Swaps** - Example: \"Swap 1 SOL to USDC\"\n2. **Balance Check** - Example: \"Check my balance\"\n3. **Transaction History** - Example: \"Show my recent transactions\"\n4. **Token Information** - Example: \"Tell me about SOL\"\n5. **Market Trends** - Example: \"What are the market trends?\"\n6. **Help** - Example: \"What can you do?\"\n\nI support many tokens including SOL, USDC, BONK, USDT, JUP, JTO, RAY, PYTH, MEME, and WIF. I can also provide real-time price estimates when performing swaps.",
        intent := some .help }

/-- The network fee constant of the transfer handler (`0.000005` SOL). -/
def transactionFee : ℚ := 5 / 1000000

/-- The `fullMessage` the transfer handler hands to the address detector:
`context.originalPrompt || match.input || ""`. -/
def transferFullMessage (m : MatchRes) (context : Ctx) : String :=
  (jsOrStr context.originalPrompt (some m.input)).getD ""

/-- Transfer-handler response: wallet not connected. -/
def transferConnectResponse : Response :=
  { message := "Please connect your wallet first to make a transfer.",
    intent := none,
    suggestions := some ["How do I connect my wallet?", "What is a wallet?"] }

/-- Transfer-handler response: no address detected in the raw message. -/
def addressClarificationResponse : Response :=
  { message := "I couldn\x27t find a valid Solana wallet address in your message. Please provide a complete Solana address.",
    intent := none,
    suggestions := some ["What does a Solana address look like?", "How do I copy a wallet address?"] }

/-- Transfer-handler response: amount `NaN` or not positive. -/
def invalidAmountResponse : Response :=
  { message := "The amount to transfer must be a positive number.",
    intent := none,
    suggestions := some ["Send 0.001 SOL", "How much SOL should I transfer?"] }

/-- Transfer-handler response: SOL amount alone exceeds the balance. -/
def insufficientBalanceResponse (C : Collab) (balance amount : ℚ) : Response :=
  { message := "You don\x27t have enough SOL for this transfer. Your current balance is "
      ++ toFixedStr 4 balance ++ " SOL, but you\x27re trying to send "
      ++ C.numStr amount ++ " SOL.",
    intent := none,
    suggestions := some ["Check my balance", "How do I get more SOL?"] }

/-- Transfer-handler response: SOL amount plus fee exceeds the balance; the
suggested reduced amount is `Math.max(0, balance - fee).toFixed(4)`. -/
def insufficientFeeResponse (C : Collab) (balance amount : ℚ) : Response :=
  { message := "You need to keep some SOL for transaction fees. Your balance is "
      ++ toFixedStr 4 balance ++ " SOL, and this transaction requires "
      ++ C.numStr (amount + transactionFee) ++ " SOL (including fees).",
    intent := none,
    suggestions := some ["Send " ++ toFixedStr 4 (max 0 (balance - transactionFee)) ++ " SOL",
                         "Check my balance"] }

/-- Transfer-handler response: non-SOL transfer, SOL balance below the fee. -/
def nonSolFeeShortfallResponse (C : Collab) (balance : ℚ) : Response :=
  { message := "You don\x27t have enough SOL to cover the transaction fee. Your current SOL balance is "
      ++ toFixedStr 6 balance ++ " SOL, but you need at least "
      ++ C.numStr transactionFee ++ " SOL for fees.",
    intent := none,
    suggestions := some ["Check my balance", "How do I get more SOL?"] }

/-- Transfer-handler response: all guard checks passed; the only branch
that carries a `TransferIntent`. -/
def transferConfirmResponse (C : Collab) (recipient : String) (amount : ℚ) (token : String) :
    Response :=
  { message := "I\x27ll help you send " ++ C.numStr amount ++ " " ++ token
      ++ " to " ++ strSliceTo 4 recipient ++ "..." ++ strSliceLast 4 recipient
      ++ ". Please confirm this transaction.",
    intent := some (.transfer recipient amount token),
    suggestions := some ["Confirm", "Cancel", "Check my balance"] }

/-- `OPERATIONS.transfer.handler` — the transaction safety guard.
`fullMessage` is `context.originalPrompt || match.input || ""`; the
recipient comes only from the external address detector (JS-falsy result
counts as not found); `NaN` from `parseFloat` is `none`.  Checks run in
source order and short-circuit. -/
def transferHandler (C : Collab) (m : MatchRes) (context : Ctx) : Except String Response := do
  if !context.walletConnected then
    return transferConnectResponse
  let fullMessage := transferFullMessage m context
  let token ← match m.g 2 with
    | some t => Except.ok (strToUpper t)
    | none => Except.error "TypeError: match[2] is undefined"
  let recipientOpt ← C.detectSolanaAddress fullMessage
  match strTruthy recipientOpt with
  | none => return addressClarificationResponse
  | some recipient =>
    match (m.g 1).bind parseFloatQ with
    | none => return invalidAmountResponse
    | some numericAmount =>
      if numericAmount ≤ 0 then
        return invalidAmountResponse
      else if token = "SOL" then
        if numericAmount > context.balance then
          return insufficientBalanceResponse C context.balance numericAmount
        else if numericAmount + transactionFee > context.balance then
          return insufficientFeeResponse C context.balance numericAmount
        else
          return transferConfirmResponse C recipient numericAmount token
      else
        if context.balance < transactionFee then
          return nonSolFeeShortfallResponse C context.balance
        else
          return transferConfirmResponse C recipient numericAmount token

/-- `OPERATIONS.cryptoKnowledge.handler`.  No pattern of this operation has
a second capture group, so `source` is always `undefined` and its guarded
branch never runs; the defensive `if (!match)` branch is unreachable. -/
def cryptoKnowledgeHandlerOp (m : MatchRes) (_context : Ctx) : Except String Response := do
  let topicRaw ← match m.g 1 with
    | some s => Except.ok s
    | none => Except.error "TypeError: match[1] is undefined"
  let topic := strToLower topicRaw
  let _source := (m.g 2).map strToLower
  .ok { message := "Crypto knowledge response", intent := some (.cryptoKnowledge topic) }

/-- `OPERATIONS.marketAnalysis.handler`: the two knowledge-service calls
are made (and may throw) but their results are unused. -/
def marketAnalysisHandler (C : Collab) (context : Ctx) : Except String Response := do
  let _ ← C.getMarketAnalysis "market cycles"
  let _ ← C.getMarketAnalysis "sentiment"
  let expertiseLevel := (strTruthy context.expertiseLevel).getD "beginner"
  let response :=
    if expertiseLevel = "advanced" then
      "# Comprehensive Market Analysis\n\n"
      ++ "## Current Market Structure\n"
      ++ "The crypto market is showing characteristics consistent with "
      ++ "the early accumulation phase following a bear market, with select assets beginning to show strength while overall sentiment remains cautious.\n\n"
      ++ "## On-Chain Indicators\n"
      ++ "- Exchange outflows have increased 15% month-over-month, suggesting accumulation\n"
      ++ "- Long-term holder supply is near all-time highs at 78% of circulating supply\n"
      ++ "- Realized cap has stabilized, indicating absorption of selling pressure\n"
      ++ "- Stablecoin market cap ratio suggests significant dry powder waiting on sidelines\n\n"
      ++ "## Macro Correlations\n"
      ++ "- Reduced correlation with equities (0.65, down from 0.82)\n"
      ++ "- Increased sensitivity to liquidity conditions and Fed policy\n"
      ++ "- Dollar strength remains a headwind for risk assets\n\n"
      ++ "## Technical Structure\n"
      ++ "- Higher lows forming on weekly timeframes\n"
      ++ "- 200-week moving average providing support\n"
      ++ "- Decreased volatility typically preceding expansion phase\n\n"
    else if expertiseLevel = "intermediate" then
      "# Current Market Analysis\n\n"
      ++ "The crypto market is currently showing signs of recovery with several key indicators suggesting accumulation:\n\n"
      ++ "- Prices have stabilized and are forming higher lows\n"
      ++ "- Trading volume has increased on positive price movements\n"
      ++ "- Long-term holders are no longer selling and have begun accumulating\n"
      ++ "- Market sentiment has shifted from extreme fear toward neutral\n\n"
      ++ "Key levels to watch include the 200-day moving average and previous support/resistance zones. Market structure appears to be improving, but remains vulnerable to macro factors including central bank policy and traditional market movements.\n\n"
      ++ "For Solana specifically, ecosystem activity metrics have improved significantly, with daily active addresses and transaction count trending upward."
    else
      "# Simple Market Update\n\n"
      ++ "The crypto market has been recovering after a difficult period. Here\x27s what you should know:\n\n"
      ++ "- Prices have been gradually increasing over recent months\n"
      ++ "- More people are getting interested in crypto again\n"
      ++ "- The overall mood has improved from fearful to cautiously optimistic\n"
      ++ "- New projects and developments continue despite earlier price drops\n\n"
      ++ "Remember that crypto markets can be very unpredictable and volatile. It\x27s important to only invest what you can afford to lose and to take a long-term perspective if you decide to invest.\n\n"
      ++ "For Solana, things have been looking positive with more people using the network and new projects launching."
  .ok { message := response, intent := some (.marketAnalysis expertiseLevel) }

/-- One strategy record of the mock investment data. -/
structure InvestmentStrategy where
  description : String
  implementation : String
  advantages : List String
  disadvantages : Option (List String) := none
  benefits : Option (List String) := none
  methodology : Option (List String) := none
  riskLevel : Option String := none
  minimumRatios : Option (List String) := none
  diversityPrinciples : Option (List String) := none
deriving DecidableEq, Repr

/-- `getInvestmentData`: always resolves with `found: true` and the fixed
mock data (the two strategies below). -/
def mockInvestmentData : List (String × InvestmentStrategy) := [
  ("portfolio", { description := "Portfolio management strategies",
                  implementation := "Diversified asset allocation",
                  advantages := ["Risk reduction", "Stable returns"],
                  riskLevel := some "Medium",
                  minimumRatios := some ["60/40 stocks/bonds", "10% crypto allocation"],
                  diversityPrinciples := some ["Geographic diversification", "Asset class diversification"] }),
  ("risk", { description := "Risk management strategies",
             implementation := "Stop-loss and position sizing",
             advantages := ["Capital preservation", "Emotional control"],
             riskLevel := some "Low" })]

/-- `OPERATIONS.investmentEducation.handler`.  Its first pattern has no
capture group, so `match[1].toLowerCase()` throws a `TypeError` on
prompts matched by it; the mock data is keyed by the captured phrase
(`match[1]` lower-cased). -/
def investmentEducationHandler (m : MatchRes) (_context : Ctx) : Except String Response := do
  let tRaw ← match m.g 1 with
    | some s => Except.ok s
    | none => Except.error "TypeError: match[1] is undefined"
  let investmentType := strToLower tRaw
  let _expertiseLevel := strTruthy ((m.g 2).map strToLower) |>.getD "beginner"
  let response :=
    match (mockInvestmentData.find? (fun e => e.1 = investmentType)).map (·.2) with
    | some strategy =>
      let r := "Investment Strategy for " ++ investmentType ++ ":\n"
      let r := r ++ "Description: " ++ strategy.description ++ "\n"
      let r := r ++ "Implementation: " ++ strategy.implementation ++ "\n"
      let r := r ++ "Advantages: " ++ String.intercalate ", " strategy.advantages ++ "\n"
      let r := match strategy.disadvantages with
        | some l => if l.length ≠ 0 then r ++ "Disadvantages: " ++ String.intercalate ", " l ++ "\n" else r
        | none => r
      let r := match strategy.benefits with
        | some l => if l.length ≠ 0 then r ++ "Benefits: " ++ String.intercalate ", " l ++ "\n" else r
        | none => r
      let r := match strategy.methodology with
        | some l => if l.length ≠ 0 then r ++ "Methodology: " ++ String.intercalate ", " l ++ "\n" else r
        | none => r
      let r := match strTruthy strategy.riskLevel with
        | some rl => r ++ "Risk Level: " ++ rl ++ "\n"
        | none => r
      r
    | none => ""
  .ok { message := if response = "" then "No investment data found" else response,
        intent := some (.investmentEducation investmentType) }

/-- One entry of the ordered pattern catalog. -/
structure Operation where
  description : String
  patterns : List Pattern
  handler : Collab → PriceCache → MatchRes → Ctx → Except String Response

/-- `OPERATIONS`, in object-literal insertion order — the order walked by
`Object.entries` in the router. -/
def OPERATIONS : List (String × Operation) := [
  ("swap", { description := "Exchange one token for another",
             patterns := [swapPat1, swapPat2, swapPat3, swapPat4, swapPat5, swapPat6,
                          swapPat7, swapPat8, swapPat9, swapPat10],
             handler := fun _ _ m ctx => swapHandler m ctx }),
  ("balance", { description := "Check token balances",
                patterns := [balancePat1, balancePat2, balancePat3, balancePat4, balancePat5],
                handler := fun C cache m ctx => balanceHandler C cache m ctx }),
  ("tokenInfo", { description := "Get information about tokens",
                  patterns := [tokenInfoPat1, tokenInfoPat2, tokenInfoPat3, tokenInfoPat4,
                               tokenInfoPat5],
                  handler := fun C cache m ctx => tokenInfoHandler C cache m ctx }),
  ("price", { description := "Get current price of a token",
              patterns := [pricePat1, pricePat2],
              handler := fun _ _ m ctx => priceHandler m ctx }),
  ("history", { description := "View transaction history",
                patterns := [historyPat1, historyPat2, historyPat3, historyPat4, historyPat5,
                             historyPat6, historyPat7, historyPat8],
                handler := fun C _ m ctx => historyHandler C m ctx }),
  ("marketTrends", { description := "Get market trends and insights",
                     patterns := [marketTrendsPat1, marketTrendsPat2, marketTrendsPat3,
                                  marketTrendsPat4, marketTrendsPat5],
                     handler := fun _ _ _ ctx => marketTrendsHandler ctx }),
  ("help", { description := "Get help on using the assistant",
             patterns := [helpPat1, helpPat2, helpPat3, helpPat4],
             handler := fun _ _ _ ctx => helpHandler ctx }),
  ("transfer", { description := "Transfer SOL or tokens to a wallet",
                 patterns := [transferPat1, transferPat2],
                 handler := fun C _ m ctx => transferHandler C m ctx }),
  ("cryptoKnowledge", { description := "Provide in-depth crypto knowledge on various topics",
                        patterns := [cryptoKnowledgePat1, cryptoKnowledgePat2,
                                     cryptoKnowledgePat3, cryptoKnowledgePat4],
                        handler := fun _ _ m ctx => cryptoKnowledgeHandlerOp m ctx }),
  ("marketAnalysis", { description := "Provide market analysis and insights",
                       patterns := [marketAnalysisPat1, marketAnalysisPat2, marketAnalysisPat3,
                                    marketAnalysisPat4],
                       handler := fun C _ _ ctx => marketAnalysisHandler C ctx }),
  ("investmentEducation", { description := "Provide investment education and strategies",
                            patterns := [investmentEducationPat1, investmentEducationPat2,
                                         investmentEducationPat3, investmentEducationPat4],
                            handler := fun _ _ m ctx => investmentEducationHandler m ctx })]

/-- The catalog walk of the router: first operation (in declared order)
whose first matching pattern (in declared order) fires. -/
def findOpMatch : List (String × Operation) → String → Option (String × Operation × MatchRes)
  | [], _ => none
  | (n, op) :: rest, s =>
    match firstMatch op.patterns s with
    | some m => some (n, op, m)
    | none => findOpMatch rest s

/-- The transfer-verb fast-path guard of `parseUserIntent`. -/
def startsWithTransferVerb (lowerPrompt : String) : Bool :=
  strStartsWith lowerPrompt "send" || strStartsWith lowerPrompt "transfer"
    || strStartsWith lowerPrompt "pay" || strStartsWith lowerPrompt "give"

/-- Body of `parseUserIntent` (the contents of its `try` block); the
state write-back to the global `conversationContext` is modelled
separately via `updateConversationContext`, which this function uses to
derive the suggestion list exactly as the source does. -/
def parseUserIntentE (C : Collab) (cache : PriceCache) (cc : ConversationContext)
    (prompt : String) (context : Ctx) : Except String Response :=
  let enhancedContext := { context with originalPrompt := some prompt }
  let lowerPrompt := strToLower prompt
  let fastAttempt :=
    if startsWithTransferVerb lowerPrompt then fastTransferPat lowerPrompt else none
  match fastAttempt with
  | some transferMatch => transferHandler C transferMatch enhancedContext
  | none =>
    match findOpMatch OPERATIONS prompt with
    | some (opName, op, m) =>
      let cc2 := updateConversationContext prompt (some opName) [] cc
      match op.handler C cache m context with
      | .error e => .error e
      | .ok result =>
        let result :=
          match getPersonalizedTips C cc2 context with
          | some tip => { result with message := result.message ++ "\n\n" ++ tip }
          | none => result
        .ok { result with suggestions := some cc2.suggestedNextActions }
    | none =>
      match C.detectSolanaAddress prompt with
      | .error e => .error e
      | .ok addrOpt =>
        match strTruthy addrOpt with
        | some address =>
          .ok { message := "I\x27ve detected a Solana wallet address: " ++ strSliceTo 4 address
                  ++ "..." ++ strSliceLast 4 address
                  ++ ". If you\x27d like to send funds to this address, please let me know the amount and token (e.g., \"Send 0.1 SOL to this address\").",
                intent := none,
                suggestions := some ["Send 0.1 SOL to this address", "Send 5 USDC to this address",
                                    "What is this wallet?"] }
        | none => .ok (handleGeneralChat C prompt)

/-- The fixed response produced by the catch clause of `parseUserIntent`. -/
def fallbackResponse : Response :=
  { message := "Sorry, I couldn\x27t understand that command. Please try something like \x27Send 0.001 SOL to [wallet address]\x27.",
    intent := none,
    suggestions := some ["Check my balance", "What can you help me with?"] }

/-- `parseUserIntent` with its top-level `try`/`catch`: any exception in
matching or handler execution becomes the fixed fallback response. -/
def parseUserIntent (C : Collab) (cache : PriceCache) (cc : ConversationContext)
    (prompt : String) (context : Ctx) : Response :=
  match parseUserIntentE C cache cc prompt context with
  | .ok r => r
  | .error _ => fallbackResponse

/-- Pure sample collaborators for concrete instantiations: the detector
finds nothing, all fallible calls succeed benignly, every random gate is
closed, and number rendering is empty. -/
def sampleCollab : Collab := {
  detectSolanaAddress := fun _ => .ok none,
  fetchTokenPrice := fun _ => .ok none,
  now := 0,
  parseDateQuery := fun _ => (none, none),
  getTransactionsForDateRange := fun _ _ => .ok none,
  formatTransactionsForDisplay := fun _ => "",
  getMarketAnalysis := fun _ => .ok (),
  numStr := fun _ => "",
  rndTipSwapAfterBalance := false,
  rndTipTokenAfterSwap := false,
  rndTipMarketTrends := false,
  rndTipHistory := false,
  pick := fun _ => 0 }

/-- Sample collaborators with a fixed address-detector behaviour. -/
def collabWithDetect (d : String → Except String (Option String)) : Collab :=
  { sampleCollab with detectSolanaAddress := d }

/-- The default request context (default parameter of `parseUserIntent`). -/
def defaultContext : Ctx :=
  { walletConnected := false, walletAddress := none, balance := 0 }

/-- A connected wallet context with the given SOL balance. -/
def connectedContext (b : ℚ) : Ctx :=
  { walletConnected := true,
    walletAddress := some "9xQeWvG816bUx9EPjHmaT23yvVM2ZWbrrpZb9PusVFin",
    balance := b }

/-- Fold a batch of `updateConversationContext` calls over a state. -/
def applyUpdates (updates : List (String × Option String × List String))
    (cc : ConversationContext) : ConversationContext :=
  updates.foldl (fun cc u => updateConversationContext u.1 u.2.1 u.2.2 cc) cc

/-- All tokens inserted by a batch of updates, in insertion order. -/
def updatesTokens (updates : List (String × Option String × List String)) : List String :=
  updates.flatMap (fun u => u.2.2)

/-- A JS-truthy optional string is exactly that (nonempty) string. -/
theorem strTruthy_eq_some {o : Option String} {x : String} (h : strTruthy o = some x) :
    o = some x := by
  cases o with
  | none => simp [strTruthy] at h
  | some s =>
    simp only [strTruthy] at h
    by_cases hs : s = "" <;> simp [hs] at h
    simp [h]

/-- Every `.ok` result of the transfer handler either carries no intent or
carries a `TransferIntent` whose recipient was produced (truthy) by the
address detector on the raw message. -/
theorem transferHandler_intent_shape (C : Collab) (m : MatchRes) (ctx : Ctx) (r : Response)
    (hrun : transferHandler C m ctx = .ok r) :
    r.intent = none ∨
    ∃ rec a t, r.intent = some (.transfer rec a t) ∧
      C.detectSolanaAddress (transferFullMessage m ctx) = .ok (some rec) := by
  unfold transferHandler at hrun
  cases hw : ctx.walletConnected with
  | false =>
    simp only [hw, Bool.not_false, if_true, pure, Except.pure, Except.ok.injEq] at hrun
    subst hrun; exact Or.inl rfl
  | true =>
    simp only [hw, Bool.not_true, Bool.false_eq_true, if_false, bind, Except.bind, pure,
      Except.pure] at hrun
    cases htk : m.g 2 with
    | none => simp only [htk] at hrun; exact absurd hrun (by simp)
    | some tk =>
      simp only [htk] at hrun
      cases hdet : C.detectSolanaAddress (transferFullMessage m ctx) with
      | error e => simp only [hdet] at hrun; exact absurd hrun (by simp)
      | ok ro =>
        simp only [hdet] at hrun
        cases hst : strTruthy ro with
        | none =>
          simp only [hst, Except.ok.injEq] at hrun
          subst hrun; exact Or.inl rfl
        | some recip =>
          have hro : ro = some recip := strTruthy_eq_some hst
          simp only [hst] at hrun
          cases hpa : (m.g 1).bind parseFloatQ with
          | none =>
            simp only [hpa, Except.ok.injEq] at hrun
            subst hrun; exact Or.inl rfl
          | some amt =>
            simp only [hpa] at hrun
            split at hrun
            · simp only [Except.ok.injEq] at hrun
              subst hrun; exact Or.inl rfl
            · split at hrun
              · split at hrun
                · simp only [Except.ok.injEq] at hrun
                  subst hrun; exact Or.inl rfl
                · split at hrun
                  · simp only [Except.ok.injEq] at hrun
                    subst hrun; exact Or.inl rfl
                  · simp only [Except.ok.injEq] at hrun
                    subst hrun
                    exact Or.inr ⟨recip, amt, _, rfl, by rw [hro]⟩
              · split at hrun
                · simp only [Except.ok.injEq] at hrun
                  subst hrun; exact Or.inl rfl
                · simp only [Except.ok.injEq] at hrun
                  subst hrun
                  exact Or.inr ⟨recip, amt, _, rfl, by rw [hro]⟩

/-- C1: for every call to the transfer handler with the wallet connected
(and a captured token group, which every router call site provides), if
the address detector finds no Solana-format address in the raw message
the handler returns `intent = null` with the clarifying
address-validity message; and a `TransferIntent` is only ever emitted
with a recipient string returned by the address detector. -/
theorem transfer_requires_detected_address
    (C : Collab) (m : MatchRes) (ctx : Ctx) (tk : String)
    (hw : ctx.walletConnected = true) (htk : m.g 2 = some tk) :
    (C.detectSolanaAddress (transferFullMessage m ctx) = .ok none →
      transferHandler C m ctx = .ok addressClarificationResponse) ∧
    (∀ r rec a t, transferHandler C m ctx = .ok r →
      r.intent = some (.transfer rec a t) →
      C.detectSolanaAddress (transferFullMessage m ctx) = .ok (some rec)) := by
  constructor
  · intro hdet
    unfold transferHandler
    simp only [hw, Bool.not_true, Bool.false_eq_true, if_false, bind, Except.bind, pure,
      Except.pure, htk, hdet, strTruthy]
  · intro r rec a t hrun hint
    rcases transferHandler_intent_shape C m ctx r hrun with hnone | ⟨rec2, a2, t2, hi, hdet⟩
    · rw [hnone] at hint; exact absurd hint (by simp)
    · rw [hi] at hint
      have : rec2 = rec := by
        have := Option.some.inj hint
        cases this; rfl
      rw [← this]; exact hdet

/-- C1 witness: a concrete connected call whose detector finds nothing
returns exactly the address clarification. -/
theorem transfer_requires_detected_address_witness :
    (connectedContext 10).walletConnected = true ∧
    (MatchRes.g ⟨[some "5", some "sol"], "send 5 sol"⟩ 2 = some "sol") ∧
    transferHandler (collabWithDetect (fun _ => .ok none))
      ⟨[some "5", some "sol"], "send 5 sol"⟩ (connectedContext 10) =
      .ok addressClarificationResponse := by
  refine ⟨rfl, rfl, ?_⟩
  exact (transfer_requires_detected_address (collabWithDetect (fun _ => .ok none))
    ⟨[some "5", some "sol"], "send 5 sol"⟩ (connectedContext 10) "sol" rfl rfl).1 rfl

/-- Evaluation of the transfer handler once the wallet is connected, an
address was detected (truthy), and the amount parsed: the remaining
behaviour is exactly the balance/fee decision tree of the source. -/
theorem transferHandler_eval
    (C : Collab) (m : MatchRes) (ctx : Ctx) (tk recip : String) (A : ℚ)
    (hw : ctx.walletConnected = true)
    (htk : m.g 2 = some tk)
    (hdet : C.detectSolanaAddress (transferFullMessage m ctx) = .ok (some recip))
    (hrec : recip ≠ "")
    (ham : (m.g 1).bind parseFloatQ = some A)
    (hA : 0 < A) :
    transferHandler C m ctx = .ok (
      if strToUpper tk = "SOL" then
        if A > ctx.balance then insufficientBalanceResponse C ctx.balance A
        else if A + transactionFee > ctx.balance then insufficientFeeResponse C ctx.balance A
        else transferConfirmResponse C recip A (strToUpper tk)
      else
        if ctx.balance < transactionFee then nonSolFeeShortfallResponse C ctx.balance
        else transferConfirmResponse C recip A (strToUpper tk)) := by
  unfold transferHandler
  simp only [hw, Bool.not_true, Bool.false_eq_true, if_false, bind, Except.bind, pure,
    Except.pure, htk, hdet, ham, strTruthy, hrec, if_neg (not_le.mpr hA)]
  split <;> [skip; skip] <;> split <;> first | rfl | (split <;> rfl)

/-- The value printed by `toFixed(d)` on a nonnegative rational exceeds it
by at most half an ulp. -/
theorem toFixedQ_le_add (d : Nat) (q : ℚ) (h : 0 ≤ q) :
    toFixedQ d q ≤ q + 1 / (2 * 10 ^ d) := by
  unfold toFixedQ
  rw [if_neg (not_lt.mpr h)]
  have hpow : (0 : ℚ) < 10 ^ d := by positivity
  rw [div_le_iff₀ hpow]
  have hfl : ((⌊q * 10 ^ d + 1 / 2⌋ : ℤ) : ℚ) ≤ q * 10 ^ d + 1 / 2 := Int.floor_le _
  have hx : (q + 1 / (2 * 10 ^ d)) * 10 ^ d = q * 10 ^ d + 1 / 2 := by
    field_simp
    ring
  rw [hx]
  exact hfl

/-- C2 (amended): for a connected SOL transfer with detected recipient,
`0 < A ≤ B` and `B < A + fee`, the handler returns the
insufficient-for-fees response with `intent = null` whose suggested
alternate amount is `max(0, B - fee)` rounded to 4 decimal places
(`toFixed(4)`, round-to-nearest); that rounded amount can exceed
`B - fee`, but never by more than half of the last rounded digit
(`1/20000 = 0.00005`). -/
theorem sol_transfer_fee_suggestion
    (C : Collab) (m : MatchRes) (ctx : Ctx) (tk recip : String) (A : ℚ)
    (hw : ctx.walletConnected = true)
    (htk : m.g 2 = some tk)
    (hsol : strToUpper tk = "SOL")
    (hdet : C.detectSolanaAddress (transferFullMessage m ctx) = .ok (some recip))
    (hrec : recip ≠ "")
    (ham : (m.g 1).bind parseFloatQ = some A)
    (hA : 0 < A)
    (hBA : A ≤ ctx.balance)
    (hfee : ctx.balance < A + transactionFee) :
    transferHandler C m ctx = .ok (insufficientFeeResponse C ctx.balance A) ∧
    (insufficientFeeResponse C ctx.balance A).suggestions =
      some ["Send " ++ toFixedStr 4 (max 0 (ctx.balance - transactionFee)) ++ " SOL",
            "Check my balance"] ∧
    toFixedQ 4 (max 0 (ctx.balance - transactionFee)) ≤
      ctx.balance - transactionFee + 1 / 20000 := by
  refine ⟨?_, rfl, ?_⟩
  · rw [transferHandler_eval C m ctx tk recip A hw htk hdet hrec ham hA]
    rw [if_pos hsol, if_neg (not_lt.mpr hBA), if_pos hfee]
  · rcases le_or_lt 0 (ctx.balance - transactionFee) with hpos | hneg
    · rw [max_eq_right hpos]
      have := toFixedQ_le_add 4 (ctx.balance - transactionFee) hpos
      have h20000 : (1 : ℚ) / (2 * 10 ^ (4 : ℕ)) = 1 / 20000 := by norm_num
      rw [h20000] at this
      exact this
    · rw [max_eq_left (le_of_lt hneg)]
      have h0 : toFixedQ 4 (0 : ℚ) = 0 := by
        unfold toFixedQ
        norm_num
      rw [h0]
      have hfeeval : transactionFee = 5 / 1000000 := rfl
      have hB : 0 < ctx.balance := lt_of_lt_of_le hA hBA
      rw [hfeeval] at hneg ⊢
      linarith

unseal Rat.mul Rat.inv Rat.add Rat.sub in
/-- C2 witness: concrete application at `B = A = 10` (so `A ≤ B` but
`A + fee > B`). -/
theorem sol_transfer_fee_suggestion_witness :
    ((0 : ℚ) < 10 ∧ (10 : ℚ) ≤ 10 ∧ (10 : ℚ) < 10 + transactionFee) ∧
    transferHandler (collabWithDetect (fun _ => .ok (some "9xQeWvG816bUx9EPjHmaT23yvVM2ZWbrrpZb9PusVFin")))
        ⟨[some "10", some "sol"], "send 10 sol to 9xQeWvG816bUx9EPjHmaT23yvVM2ZWbrrpZb9PusVFin"⟩
        (connectedContext 10) =
      .ok (insufficientFeeResponse
        (collabWithDetect (fun _ => .ok (some "9xQeWvG816bUx9EPjHmaT23yvVM2ZWbrrpZb9PusVFin")))
        10 10) := by
  refine ⟨⟨by decide, by decide, by decide⟩, ?_⟩
  exact (sol_transfer_fee_suggestion
    (collabWithDetect (fun _ => .ok (some "9xQeWvG816bUx9EPjHmaT23yvVM2ZWbrrpZb9PusVFin")))
    ⟨[some "10", some "sol"], "send 10 sol to 9xQeWvG816bUx9EPjHmaT23yvVM2ZWbrrpZb9PusVFin"⟩
    (connectedContext 10) "sol" "9xQeWvG816bUx9EPjHmaT23yvVM2ZWbrrpZb9PusVFin" 10
    rfl rfl (by decide) rfl (by decide) (by decide) (by decide) (by decide) (by decide)).1

unseal Rat.mul Rat.inv Rat.add Rat.sub in
/-- C2 counterexample: at `B = A = 0.1` the handler emits the
insufficient-for-fees response whose suggested amount renders as
`0.1000` SOL, and that rounded amount strictly exceeds `B - fee`
(`0.1 > 0.099995`) — refuting the claim that the suggestion never
exceeds `B - 0.000005`. -/
theorem sol_transfer_fee_suggestion_counterexample :
    transferHandler (collabWithDetect (fun _ => .ok (some "9xQeWvG816bUx9EPjHmaT23yvVM2ZWbrrpZb9PusVFin")))
        ⟨[some "0.1", some "sol"], "send 0.1 sol to 9xQeWvG816bUx9EPjHmaT23yvVM2ZWbrrpZb9PusVFin"⟩
        (connectedContext (1 / 10)) =
      .ok (insufficientFeeResponse
        (collabWithDetect (fun _ => .ok (some "9xQeWvG816bUx9EPjHmaT23yvVM2ZWbrrpZb9PusVFin")))
        (1 / 10) (1 / 10)) ∧
    (insufficientFeeResponse
        (collabWithDetect (fun _ => .ok (some "9xQeWvG816bUx9EPjHmaT23yvVM2ZWbrrpZb9PusVFin")))
        (1 / 10) (1 / 10)).suggestions =
      some ["Send 0.1000 SOL", "Check my balance"] ∧
    toFixedQ 4 (max 0 ((1 : ℚ) / 10 - transactionFee)) > (1 : ℚ) / 10 - transactionFee := by
  exact ⟨by decide, by decide, by decide⟩

/-- C5: for a connected SOL transfer with detected recipient and amount
`A` strictly greater than the balance `B` (`A > 0`), the handler returns
the insufficient-balance clarification with `intent = null` and the fixed
suggestion pair (no fee-derived alternate amount); the amount-plus-fee
check is short-circuited — the result is the insufficient-balance
response even though `A + fee > B` also holds. -/
theorem sol_transfer_insufficient_balance
    (C : Collab) (m : MatchRes) (ctx : Ctx) (tk recip : String) (A : ℚ)
    (hw : ctx.walletConnected = true)
    (htk : m.g 2 = some tk)
    (hsol : strToUpper tk = "SOL")
    (hdet : C.detectSolanaAddress (transferFullMessage m ctx) = .ok (some recip))
    (hrec : recip ≠ "")
    (ham : (m.g 1).bind parseFloatQ = some A)
    (hA : 0 < A)
    (hAB : ctx.balance < A) :
    transferHandler C m ctx = .ok (insufficientBalanceResponse C ctx.balance A) ∧
    (insufficientBalanceResponse C ctx.balance A).intent = none ∧
    (insufficientBalanceResponse C ctx.balance A).suggestions =
      some ["Check my balance", "How do I get more SOL?"] := by
  refine ⟨?_, rfl, rfl⟩
  rw [transferHandler_eval C m ctx tk recip A hw htk hdet hrec ham hA]
  rw [if_pos hsol, if_pos hAB]

unseal Rat.mul Rat.inv Rat.add Rat.sub in
/-- C5 witness: concrete application at `B = 1`, `A = 5`. -/
theorem sol_transfer_insufficient_balance_witness :
    ((0 : ℚ) < 5 ∧ (connectedContext 1).balance < 5) ∧
    transferHandler (collabWithDetect (fun _ => .ok (some "9xQeWvG816bUx9EPjHmaT23yvVM2ZWbrrpZb9PusVFin")))
        ⟨[some "5", some "sol"], "send 5 sol to 9xQeWvG816bUx9EPjHmaT23yvVM2ZWbrrpZb9PusVFin"⟩
        (connectedContext 1) =
      .ok (insufficientBalanceResponse
        (collabWithDetect (fun _ => .ok (some "9xQeWvG816bUx9EPjHmaT23yvVM2ZWbrrpZb9PusVFin")))
        1 5) := by
  refine ⟨⟨by decide, by decide⟩, ?_⟩
  exact (sol_transfer_insufficient_balance
    (collabWithDetect (fun _ => .ok (some "9xQeWvG816bUx9EPjHmaT23yvVM2ZWbrrpZb9PusVFin")))
    ⟨[some "5", some "sol"], "send 5 sol to 9xQeWvG816bUx9EPjHmaT23yvVM2ZWbrrpZb9PusVFin"⟩
    (connectedContext 1) "sol" "9xQeWvG816bUx9EPjHmaT23yvVM2ZWbrrpZb9PusVFin" 5
    rfl rfl (by decide) rfl (by decide) (by decide) (by decide) (by decide)).1

/-- C4: for a connected non-SOL transfer with detected recipient and
amount `A > 0`, the handler emits the `TransferIntent` whenever the SOL
balance covers the fixed fee, and returns the fee clarification with
`intent = null` otherwise — for every token-balance list, including one
in which the sender holds none of the target token: the SOL-fee check is
the only balance check in this branch. -/
theorem nonsol_transfer_checks_only_sol_fee
    (C : Collab) (m : MatchRes) (ctx : Ctx) (tk recip : String) (A : ℚ)
    (hw : ctx.walletConnected = true)
    (htk : m.g 2 = some tk)
    (hsol : strToUpper tk ≠ "SOL")
    (hdet : C.detectSolanaAddress (transferFullMessage m ctx) = .ok (some recip))
    (hrec : recip ≠ "")
    (ham : (m.g 1).bind parseFloatQ = some A)
    (hA : 0 < A) :
    (transactionFee ≤ ctx.balance →
      transferHandler C m ctx = .ok (transferConfirmResponse C recip A (strToUpper tk)) ∧
      (transferConfirmResponse C recip A (strToUpper tk)).intent =
        some (.transfer recip A (strToUpper tk))) ∧
    (ctx.balance < transactionFee →
      transferHandler C m ctx = .ok (nonSolFeeShortfallResponse C ctx.balance) ∧
      (nonSolFeeShortfallResponse C ctx.balance).intent = none) := by
  constructor
  · intro hfee
    refine ⟨?_, rfl⟩
    rw [transferHandler_eval C m ctx tk recip A hw htk hdet hrec ham hA]
    rw [if_neg hsol, if_neg (not_lt.mpr hfee)]
  · intro hfee
    refine ⟨?_, rfl⟩
    rw [transferHandler_eval C m ctx tk recip A hw htk hdet hrec ham hA]
    rw [if_neg hsol, if_pos hfee]

unseal Rat.mul Rat.inv Rat.add Rat.sub in
/-- C4 witness: a USDC transfer from a wallet holding `0.5` SOL and an
empty token-balance list still emits the `TransferIntent`. -/
theorem nonsol_transfer_checks_only_sol_fee_witness :
    (transactionFee ≤ (1 : ℚ) / 2 ∧ (connectedContext (1 / 2)).tokenBalances = []) ∧
    transferHandler (collabWithDetect (fun _ => .ok (some "9xQeWvG816bUx9EPjHmaT23yvVM2ZWbrrpZb9PusVFin")))
        ⟨[some "3", some "usdc"], "send 3 usdc to 9xQeWvG816bUx9EPjHmaT23yvVM2ZWbrrpZb9PusVFin"⟩
        (connectedContext (1 / 2)) =
      .ok (transferConfirmResponse
        (collabWithDetect (fun _ => .ok (some "9xQeWvG816bUx9EPjHmaT23yvVM2ZWbrrpZb9PusVFin")))
        "9xQeWvG816bUx9EPjHmaT23yvVM2ZWbrrpZb9PusVFin" 3 "USDC") := by
  refine ⟨⟨by decide, rfl⟩, ?_⟩
  exact ((nonsol_transfer_checks_only_sol_fee
    (collabWithDetect (fun _ => .ok (some "9xQeWvG816bUx9EPjHmaT23yvVM2ZWbrrpZb9PusVFin")))
    ⟨[some "3", some "usdc"], "send 3 usdc to 9xQeWvG816bUx9EPjHmaT23yvVM2ZWbrrpZb9PusVFin"⟩
    (connectedContext (1 / 2)) "usdc" "9xQeWvG816bUx9EPjHmaT23yvVM2ZWbrrpZb9PusVFin" 3
    rfl rfl (by decide) rfl (by decide) (by decide) (by decide)).1 (by decide)).1

/-- C3: when the lower-cased prompt starts with a transfer verb and the
strict fast-path pattern matches it, `parseUserIntent` routes to the
transfer handler (the transaction safety guard) before consulting the
general catalog, with the enhanced context carrying the original prompt;
consequently the returned intent is never a swap intent — the generic
numeric swap pattern cannot capture such a prompt. -/
theorem fast_path_precedence
    (C : Collab) (cache : PriceCache) (cc : ConversationContext) (prompt : String) (ctx : Ctx)
    (m : MatchRes)
    (hverb : startsWithTransferVerb (strToLower prompt) = true)
    (hfast : fastTransferPat (strToLower prompt) = some m) :
    parseUserIntentE C cache cc prompt ctx =
      transferHandler C m { ctx with originalPrompt := some prompt } ∧
    (∀ t p, (parseUserIntent C cache cc prompt ctx).intent ≠ some (.swap t p)) := by
  have h1 : parseUserIntentE C cache cc prompt ctx =
      transferHandler C m { ctx with originalPrompt := some prompt } := by
    unfold parseUserIntentE
    simp only [hverb, if_true, hfast]
  refine ⟨h1, ?_⟩
  intro t p
  unfold parseUserIntent
  rw [h1]
  cases hrun : transferHandler C m { ctx with originalPrompt := some prompt } with
  | error e => simp [fallbackResponse]
  | ok r =>
    rcases transferHandler_intent_shape C m _ r hrun with hnone | ⟨rec, a, tk2, hi, _⟩
    · simp [hnone]
    · simp [hi]

/-- C3 witness: the prompt `"send 5 sol please"` starts with a transfer
verb, matches the strict fast-path pattern, and is routed to the
transfer handler. -/
theorem fast_path_precedence_witness :
    startsWithTransferVerb (strToLower "send 5 sol please") = true ∧
    parseUserIntentE sampleCollab [] initialConversationContext "send 5 sol please"
        defaultContext =
      transferHandler sampleCollab ⟨[some "5", some "sol"], "send 5 sol please"⟩
        { defaultContext with originalPrompt := some "send 5 sol please" } := by
  refine ⟨by decide, ?_⟩
  exact (fast_path_precedence sampleCollab [] initialConversationContext "send 5 sol please"
    defaultContext ⟨[some "5", some "sol"], "send 5 sol please"⟩ (by decide) (by decide)).1

/-- If some pattern in the list matches, the first-match loop succeeds. -/
theorem firstMatch_isSome {ps : List Pattern} {p : Pattern} {s : String}
    (hmem : p ∈ ps) (h : (p s).isSome) : (firstMatch ps s).isSome := by
  induction ps with
  | nil => cases hmem
  | cons q qs ih =>
    unfold firstMatch
    cases hq : q s with
    | some m => simp
    | none =>
      simp only
      rcases List.mem_cons.mp hmem with rfl | hmem2
      · rw [hq] at h; simp at h
      · exact ih hmem2

/-- C10: a prompt that does not start with a transfer verb but contains
the generic `<number> <word> to <word>` shape is captured by the swap
operation (declared first in the catalog): the router returns a swap
intent, so the transfer guard never produces a clarification or a
`TransferIntent` for it. -/
theorem generic_swap_shadows_transfer
    (C : Collab) (cache : PriceCache) (cc : ConversationContext) (prompt : String) (ctx : Ctx)
    (hverb : startsWithTransferVerb (strToLower prompt) = false)
    (hshape : (swapPat6 prompt).isSome = true) :
    ∃ t p, (parseUserIntent C cache cc prompt ctx).intent = some (.swap t p) := by
  have hmem : swapPat6 ∈ [swapPat1, swapPat2, swapPat3, swapPat4, swapPat5, swapPat6,
      swapPat7, swapPat8, swapPat9, swapPat10] :=
    List.mem_cons_of_mem _ (List.mem_cons_of_mem _ (List.mem_cons_of_mem _
      (List.mem_cons_of_mem _ (List.mem_cons_of_mem _ (List.mem_cons_self _ _)))))
  obtain ⟨m, hm⟩ := Option.isSome_iff_exists.mp (firstMatch_isSome hmem hshape)
  refine ⟨m.g 2, (m.g 1).bind parseFloatQ, ?_⟩
  unfold parseUserIntent parseUserIntentE
  simp only [hverb, Bool.false_eq_true, if_false, OPERATIONS, findOpMatch, hm]
  unfold swapHandler
  cases htip : getPersonalizedTips C
      (updateConversationContext prompt (some "swap") [] cc) ctx with
  | none => simp [htip]
  | some tip => simp [htip]

/-- C10 witness: `"Please send 5 SOL to <address>"` does not start with a
transfer verb, matches the generic numeric swap pattern, and yields a
swap intent. -/
theorem generic_swap_shadows_transfer_witness :
    startsWithTransferVerb
        (strToLower "Please send 5 SOL to 9xQeWvG816bUx9EPjHmaT23yvVM2ZWbrrpZb9PusVFin") =
      false ∧
    (swapPat6 "Please send 5 SOL to 9xQeWvG816bUx9EPjHmaT23yvVM2ZWbrrpZb9PusVFin").isSome =
      true ∧
    ∃ t p, (parseUserIntent sampleCollab [] initialConversationContext
        "Please send 5 SOL to 9xQeWvG816bUx9EPjHmaT23yvVM2ZWbrrpZb9PusVFin"
        defaultContext).intent = some (.swap t p) := by
  refine ⟨by decide, by decide, ?_⟩
  exact generic_swap_shadows_transfer sampleCollab [] initialConversationContext
    "Please send 5 SOL to 9xQeWvG816bUx9EPjHmaT23yvVM2ZWbrrpZb9PusVFin" defaultContext
    (by decide) (by decide)

unseal Rat.mul Rat.inv Rat.add Rat.sub in
/-- C6 counterexample: on `"Swap 1 SOL to USDC"` the router emits a swap
intent whose `token` is the *source* token `"SOL"` (capture group 2),
not `"USDC"` as the claim states; `price` is `1`. -/
theorem swap_scenario_counterexample :
    (parseUserIntent sampleCollab [] initialConversationContext "Swap 1 SOL to USDC"
        defaultContext).intent = some (.swap (some "SOL") (some 1)) ∧
    (parseUserIntent sampleCollab [] initialConversationContext "Swap 1 SOL to USDC"
        defaultContext).intent ≠ some (.swap (some "USDC") (some 1)) := by
  exact ⟨by decide, by decide⟩

unseal Rat.mul Rat.inv Rat.add Rat.sub in
/-- C6 (amended): `"Swap 1 SOL to USDC"` matches the swap operation and
returns `action = "swap"`, `intent.token = "SOL"` (the source token) and
`intent.price = 1.0`. -/
theorem swap_scenario_amended :
    parseUserIntent sampleCollab [] initialConversationContext "Swap 1 SOL to USDC"
        defaultContext =
      { message := "Swap operation initiated",
        intent := some (.swap (some "SOL") (some 1)),
        suggestions := some ["Check my balance", "Show my transaction history"] } := by
  decide

unseal Rat.mul Rat.inv Rat.add Rat.sub in
/-- C7: on `"Tell me about JUP"` the tokenInfo pattern captures the word
`"about"` as the token symbol, so the handler answers that it has no
information about `ABOUT` — the response contains neither the category
`"DEX token"` nor the launch year `2024`, contradicting the documented
scenario (and the help text example `"Tell me about SOL"`). -/
theorem tokenInfo_about_capture_bug :
    parseUserIntent sampleCollab [] initialConversationContext "Tell me about JUP"
        defaultContext =
      { message := "I don\x27t have information about about. Currently I have data on: SOL, USDC, USDT, BONK, JUP, JTO, RAY, PYTH, MEME, WIF, AKT",
        intent := none,
        suggestions := some ["What tokens do you support?", "Check my balance",
                             "What are the market trends?"] } ∧
    strIncludes (parseUserIntent sampleCollab [] initialConversationContext "Tell me about JUP"
        defaultContext).message "DEX token" = false ∧
    strIncludes (parseUserIntent sampleCollab [] initialConversationContext "Tell me about JUP"
        defaultContext).message "2024" = false := by
  exact ⟨by decide, by decide, by decide⟩

/-- C8: the top-level catch of `parseUserIntent`: whenever the body
throws, the router returns the fixed fallback message with the default
suggestion list; the function itself is total by construction (it always
returns a `Response`), so no exception escapes to the caller. -/
theorem parse_intent_catch_fallback
    (C : Collab) (cache : PriceCache) (cc : ConversationContext) (prompt : String) (ctx : Ctx)
    (e : String)
    (herr : parseUserIntentE C cache cc prompt ctx = .error e) :
    parseUserIntent C cache cc prompt ctx = fallbackResponse ∧
    fallbackResponse.suggestions = some ["Check my balance", "What can you help me with?"] := by
  refine ⟨?_, rfl⟩
  unfold parseUserIntent
  rw [herr]

/-- C8 witness: a detector that throws on the unmatched prompt `"zzz"`
makes the body throw, and the router returns the fallback. -/
theorem parse_intent_catch_fallback_witness :
    parseUserIntentE (collabWithDetect (fun _ => .error "detector crashed")) []
        initialConversationContext "zzz" defaultContext = .error "detector crashed" ∧
    parseUserIntent (collabWithDetect (fun _ => .error "detector crashed")) []
        initialConversationContext "zzz" defaultContext = fallbackResponse := by
  refine ⟨by decide, ?_⟩
  exact (parse_intent_catch_fallback (collabWithDetect (fun _ => .error "detector crashed")) []
    initialConversationContext "zzz" defaultContext "detector crashed" (by decide)).1

/-- Capped unshift never grows a list beyond its cap. -/
theorem unshiftCapped_length_le (cap : Nat) (x : String) (l : List String)
    (h : l.length ≤ cap) : (unshiftCapped cap x l).length ≤ cap := by
  unfold unshiftCapped
  simp only []
  split
  · rename_i hgt
    simp only [List.length_dropLast, List.length_cons]
    omega
  · rename_i hle
    simp only [List.length_cons]
    simp only [List.length_cons, gt_iff_lt, not_lt] at hle
    omega

/-- On a list within its cap, capped unshift is cons-then-truncate. -/
theorem unshiftCapped_eq_take (cap : Nat) (x : String) (l : List String)
    (h : l.length ≤ cap) : unshiftCapped cap x l = (x :: l).take cap := by
  unfold unshiftCapped
  simp only []
  split
  · rename_i hgt
    simp only [List.length_cons, gt_iff_lt] at hgt
    have hlen : l.length = cap := by omega
    rw [List.dropLast_eq_take]
    simp [hlen]
  · rename_i hle
    simp only [List.length_cons, gt_iff_lt, not_lt] at hle
    exact (List.take_of_length_le (by simp only [List.length_cons]; omega)).symm

/-- Truncating the second operand of an append before an outer
truncation of the same size changes nothing. -/
theorem take_append_take {α : Type} (a b : List α) (n : Nat) :
    (a ++ b.take n).take n = (a ++ b).take n := by
  rw [List.take_append_eq_append_take, List.take_append_eq_append_take, List.take_take]
  congr 1
  rw [Nat.min_eq_left (Nat.sub_le n a.length)]

/-- Suggestion regeneration only rewrites `suggestedNextActions`. -/
theorem generateSuggestions_proj (cc : ConversationContext) :
    (generateSuggestions cc).recentTokens = cc.recentTokens ∧
    (generateSuggestions cc).recentTopics = cc.recentTopics ∧
    (generateSuggestions cc).userPreferences.preferredActions =
      cc.userPreferences.preferredActions ∧
    (generateSuggestions cc).userPreferences.favoriteTokens =
      cc.userPreferences.favoriteTokens :=
  ⟨rfl, rfl, rfl, rfl⟩

/-- Style inference only rewrites `interactionStyle`. -/
theorem applyStyleStep_proj (i : String) (cc : ConversationContext) :
    (applyStyleStep i cc).recentTokens = cc.recentTokens ∧
    (applyStyleStep i cc).recentTopics = cc.recentTopics ∧
    (applyStyleStep i cc).userPreferences.preferredActions =
      cc.userPreferences.preferredActions ∧
    (applyStyleStep i cc).userPreferences.favoriteTokens =
      cc.userPreferences.favoriteTokens := by
  unfold applyStyleStep
  simp only []
  split
  · exact ⟨rfl, rfl, rfl, rfl⟩
  · split
    · exact ⟨rfl, rfl, rfl, rfl⟩
    · exact ⟨rfl, rfl, rfl, rfl⟩

/-- The topic block never touches the token buffers. -/
theorem insertTopicStep_tokens_proj (mop : Option String) (cc : ConversationContext) :
    (insertTopicStep mop cc).recentTokens = cc.recentTokens ∧
    (insertTopicStep mop cc).userPreferences.favoriteTokens =
      cc.userPreferences.favoriteTokens := by
  unfold insertTopicStep
  cases mop with
  | none => exact ⟨rfl, rfl⟩
  | some op =>
    simp only []
    split
    · exact ⟨rfl, rfl⟩
    · exact ⟨rfl, rfl⟩

/-- The topic block keeps `recentTopics` within 8 and `preferredActions`
within 3. -/
theorem insertTopicStep_caps (mop : Option String) (cc : ConversationContext)
    (h8 : cc.recentTopics.length ≤ 8)
    (h3 : cc.userPreferences.preferredActions.length ≤ 3) :
    (insertTopicStep mop cc).recentTopics.length ≤ 8 ∧
    (insertTopicStep mop cc).userPreferences.preferredActions.length ≤ 3 := by
  unfold insertTopicStep
  cases mop with
  | none => exact ⟨h8, h3⟩
  | some op =>
    simp only []
    split
    · exact ⟨unshiftCapped_length_le 8 op _ h8, h3⟩
    · exact ⟨unshiftCapped_length_le 8 op _ h8, unshiftCapped_length_le 3 op _ h3⟩

/-- The token-loop body pushes onto `recentTokens` with cap 10 and never
touches topics or preferred actions. -/
theorem insertRecentToken_proj (cc : ConversationContext) (t : String) :
    (insertRecentToken cc t).recentTokens = unshiftCapped 10 t cc.recentTokens ∧
    (insertRecentToken cc t).recentTopics = cc.recentTopics ∧
    (insertRecentToken cc t).userPreferences.preferredActions =
      cc.userPreferences.preferredActions := by
  unfold insertRecentToken
  simp only []
  split
  · exact ⟨rfl, rfl, rfl⟩
  · exact ⟨rfl, rfl, rfl⟩

/-- The token-loop body keeps `favoriteTokens` within 5. -/
theorem insertRecentToken_favorites_le (cc : ConversationContext) (t : String)
    (h : cc.userPreferences.favoriteTokens.length ≤ 5) :
    (insertRecentToken cc t).userPreferences.favoriteTokens.length ≤ 5 := by
  unfold insertRecentToken
  simp only []
  split
  · exact h
  · exact unshiftCapped_length_le 5 t _ h

/-- Closed form of the token loop on `recentTokens`: most-recent-first
insertion with truncation to 10. -/
theorem foldl_insertRecentToken_recentTokens (toks : List String) :
    ∀ cc : ConversationContext, cc.recentTokens.length ≤ 10 →
      (toks.foldl insertRecentToken cc).recentTokens =
        (toks.reverse ++ cc.recentTokens).take 10 := by
  induction toks with
  | nil =>
    intro cc h
    simp only [List.foldl_nil, List.reverse_nil, List.nil_append]
    exact (List.take_of_length_le h).symm
  | cons t ts ih =>
    intro cc h
    rw [List.foldl_cons]
    have hrt : (insertRecentToken cc t).recentTokens = (t :: cc.recentTokens).take 10 := by
      rw [(insertRecentToken_proj cc t).1, unshiftCapped_eq_take 10 t _ h]
    have hlen : (insertRecentToken cc t).recentTokens.length ≤ 10 := by
      rw [hrt, List.length_take]
      exact Nat.min_le_left _ _
    rw [ih _ hlen, hrt, take_append_take]
    congr 1
    rw [List.reverse_cons, List.append_assoc, List.singleton_append]

/-- The token loop preserves the remaining buffer bounds. -/
theorem foldl_insertRecentToken_caps (toks : List String) :
    ∀ cc : ConversationContext,
      (toks.foldl insertRecentToken cc).recentTopics = cc.recentTopics ∧
      (toks.foldl insertRecentToken cc).userPreferences.preferredActions =
        cc.userPreferences.preferredActions ∧
      (cc.userPreferences.favoriteTokens.length ≤ 5 →
        (toks.foldl insertRecentToken cc).userPreferences.favoriteTokens.length ≤ 5) := by
  induction toks with
  | nil => intro cc; exact ⟨rfl, rfl, fun h => h⟩
  | cons t ts ih =>
    intro cc
    rw [List.foldl_cons]
    obtain ⟨h1, h2, h3⟩ := ih (insertRecentToken cc t)
    refine ⟨h1.trans (insertRecentToken_proj cc t).2.1,
            h2.trans (insertRecentToken_proj cc t).2.2, fun h => ?_⟩
    exact h3 (insertRecentToken_favorites_le cc t h)

/-- One `updateConversationContext` call on `recentTokens`: insert the
mentioned tokens most-recent-first and truncate to 10. -/
theorem updateConversationContext_recentTokens (i : String) (mop : Option String)
    (toks : List String) (cc : ConversationContext) (h : cc.recentTokens.length ≤ 10) :
    (updateConversationContext i mop toks cc).recentTokens =
      (toks.reverse ++ cc.recentTokens).take 10 := by
  unfold updateConversationContext
  rw [(generateSuggestions_proj _).1, (applyStyleStep_proj _ _).1]
  rw [foldl_insertRecentToken_recentTokens toks _
    (by rw [(insertTopicStep_tokens_proj mop cc).1]; exact h)]
  rw [(insertTopicStep_tokens_proj mop cc).1]

/-- One `updateConversationContext` call preserves all four ring-buffer
caps. -/
theorem updateConversationContext_caps (i : String) (mop : Option String)
    (toks : List String) (cc : ConversationContext)
    (h8 : cc.recentTopics.length ≤ 8) (h10 : cc.recentTokens.length ≤ 10)
    (h3 : cc.userPreferences.preferredActions.length ≤ 3)
    (h5 : cc.userPreferences.favoriteTokens.length ≤ 5) :
    (updateConversationContext i mop toks cc).recentTopics.length ≤ 8 ∧
    (updateConversationContext i mop toks cc).recentTokens.length ≤ 10 ∧
    (updateConversationContext i mop toks cc).userPreferences.preferredActions.length ≤ 3 ∧
    (updateConversationContext i mop toks cc).userPreferences.favoriteTokens.length ≤ 5 := by
  have htop := insertTopicStep_caps mop cc h8 h3
  have htok := foldl_insertRecentToken_caps toks (insertTopicStep mop cc)
  refine ⟨?_, ?_, ?_, ?_⟩
  · unfold updateConversationContext
    rw [(generateSuggestions_proj _).2.1, (applyStyleStep_proj _ _).2.1, htok.1]
    exact htop.1
  · rw [updateConversationContext_recentTokens i mop toks cc h10, List.length_take]
    exact Nat.min_le_left _ _
  · unfold updateConversationContext
    rw [(generateSuggestions_proj _).2.2.1, (applyStyleStep_proj _ _).2.2.1, htok.2.1]
    exact htop.2
  · unfold updateConversationContext
    rw [(generateSuggestions_proj _).2.2.2, (applyStyleStep_proj _ _).2.2.2]
    refine htok.2.2 ?_
    rw [(insertTopicStep_tokens_proj mop cc).2]
    exact h5

/-- Closed form of a whole batch of updates on `recentTokens`. -/
theorem applyUpdates_recentTokens (updates : List (String × Option String × List String)) :
    ∀ cc : ConversationContext, cc.recentTokens.length ≤ 10 →
      (applyUpdates updates cc).recentTokens =
        ((updatesTokens updates).reverse ++ cc.recentTokens).take 10 := by
  induction updates with
  | nil =>
    intro cc h
    simp only [applyUpdates, List.foldl_nil, updatesTokens, List.flatMap_nil,
      List.reverse_nil, List.nil_append]
    exact (List.take_of_length_le h).symm
  | cons u us ih =>
    intro cc h
    have hstep := updateConversationContext_recentTokens u.1 u.2.1 u.2.2 cc h
    have hlen : (updateConversationContext u.1 u.2.1 u.2.2 cc).recentTokens.length ≤ 10 := by
      rw [hstep, List.length_take]
      exact Nat.min_le_left _ _
    unfold applyUpdates at ih ⊢
    rw [List.foldl_cons, ih _ hlen, hstep, take_append_take]
    congr 1
    simp only [updatesTokens, List.flatMap_cons, List.reverse_append, List.append_assoc]

/-- A batch of updates preserves all four ring-buffer caps. -/
theorem applyUpdates_caps (updates : List (String × Option String × List String)) :
    ∀ cc : ConversationContext,
      cc.recentTopics.length ≤ 8 → cc.recentTokens.length ≤ 10 →
      cc.userPreferences.preferredActions.length ≤ 3 →
      cc.userPreferences.favoriteTokens.length ≤ 5 →
      (applyUpdates updates cc).recentTopics.length ≤ 8 ∧
      (applyUpdates updates cc).recentTokens.length ≤ 10 ∧
      (applyUpdates updates cc).userPreferences.preferredActions.length ≤ 3 ∧
      (applyUpdates updates cc).userPreferences.favoriteTokens.length ≤ 5 := by
  induction updates with
  | nil => intro cc h8 h10 h3 h5; exact ⟨h8, h10, h3, h5⟩
  | cons u us ih =>
    intro cc h8 h10 h3 h5
    obtain ⟨g8, g10, g3, g5⟩ := updateConversationContext_caps u.1 u.2.1 u.2.2 cc h8 h10 h3 h5
    unfold applyUpdates at ih ⊢
    rw [List.foldl_cons]
    exact ih _ g8 g10 g3 g5

/-- C9: starting from the fresh conversation context, any batch of
`updateConversationContext` calls keeps `recentTopics` within 8 entries,
`recentTokens` within 10, `preferredActions` within 3 and
`favoriteTokens` within 5; and once more than 10 tokens have been
inserted, `recentTokens` has exactly 10 entries and its head is the most
recently inserted token (most-recent-first insertion, tail eviction). -/
theorem conversation_ring_buffer_invariant
    (updates : List (String × Option String × List String)) :
    ((applyUpdates updates initialConversationContext).recentTopics.length ≤ 8 ∧
     (applyUpdates updates initialConversationContext).recentTokens.length ≤ 10 ∧
     (applyUpdates updates
        initialConversationContext).userPreferences.preferredActions.length ≤ 3 ∧
     (applyUpdates updates
        initialConversationContext).userPreferences.favoriteTokens.length ≤ 5) ∧
    (10 < (updatesTokens updates).length →
      (applyUpdates updates initialConversationContext).recentTokens.length = 10 ∧
      (applyUpdates updates initialConversationContext).recentTokens.head? =
        (updatesTokens updates).getLast?) := by
  have hclosed := applyUpdates_recentTokens updates initialConversationContext (by decide)
  have hnil : initialConversationContext.recentTokens = [] := rfl
  rw [hnil, List.append_nil] at hclosed
  constructor
  · exact applyUpdates_caps updates initialConversationContext
      (by decide) (by decide) (by decide) (by decide)
  · intro hN
    constructor
    · rw [hclosed, List.length_take, List.length_reverse]
      omega
    · rcases hrev : (updatesTokens updates).reverse with _ | ⟨x, xs⟩
      · exfalso
        have : (updatesTokens updates).length = 0 := by
          rw [← List.length_reverse, hrev]; rfl
        omega
      · rw [hclosed, hrev, ← List.head?_reverse, hrev]
        rfl

/-- C9 witness: one update inserting eleven tokens leaves exactly ten,
headed by the most recent. -/
theorem conversation_ring_buffer_invariant_witness :
    10 < (updatesTokens [("hi", some "swap",
        ["t1", "t2", "t3", "t4", "t5", "t6", "t7", "t8", "t9", "t10", "t11"])]).length ∧
    ((applyUpdates [("hi", some "swap",
        ["t1", "t2", "t3", "t4", "t5", "t6", "t7", "t8", "t9", "t10", "t11"])]
        initialConversationContext).recentTokens.length = 10 ∧
     (applyUpdates [("hi", some "swap",
        ["t1", "t2", "t3", "t4", "t5", "t6", "t7", "t8", "t9", "t10", "t11"])]
        initialConversationContext).recentTokens.head? =
       (updatesTokens [("hi", some "swap",
        ["t1", "t2", "t3", "t4", "t5", "t6", "t7", "t8", "t9", "t10", "t11"])]).getLast?) := by
  refine ⟨by decide, ?_⟩
  exact (conversation_ring_buffer_invariant [("hi", some "swap",
    ["t1", "t2", "t3", "t4", "t5", "t6", "t7", "t8", "t9", "t10", "t11"])]).2 (by decide)
